import Mathlib

/-!
# FrameForge — verification of the phase pipeline against its specification

Shallow embedding of the deterministic core of the FrameForge video-editing
pipeline (prompt refinement, intelligent questioning, narrative reasoning,
scene synthesis, and the phase session handlers of `app.py`), together with
theorems settling the specification claims.

Conventions of the embedding:
* Python strings are Lean `String`s; `pat in s` is `Py.containsSub s pat`;
  `str.lower()` is `Py.lower` (the program only manipulates ASCII text);
  `str.strip()` strips the ASCII whitespace characters Python strips.
* Python `int` is `Nat`/`Int` (no value in the program approaches an overflow
  boundary, and Python ints are unbounded anyway).
* The few floating-point expressions (`base * 1.2`, `base * 0.8`,
  `(total/60) * cpm / 4`, `required_count * 0.8`, ...) are embedded as exact
  rational/integer computations; for every value those expressions can be
  applied to in this program the IEEE-754 double computation and the exact
  computation agree (checked exhaustively over the reachable inputs), and the
  agreement is noted at each definition.
* Python dicts with fixed insertion order are association lists in the same
  order; `max(d, key=d.get)` is `Py.firstMaxByValue` (first key attaining the
  maximal value, as Python's `max` returns).
-/

namespace Py

/-- Substring test on character lists:
`listHasSub s pat = true` iff `pat` occurs contiguously in `s`
(Python's `pat in s` for strings). -/
def listHasSub : List Char → List Char → Bool
  | [], pat => pat.isEmpty
  | c :: rest, pat => pat.isPrefixOf (c :: rest) || listHasSub rest pat

/-- Python `pat in s` (substring containment). -/
def containsSub (s pat : String) : Bool :=
  listHasSub s.data pat.data

/-- Python `str.lower()` (the repository only lowercases ASCII text). -/
def lower (s : String) : String :=
  ⟨s.data.map Char.toLower⟩

/-- The whitespace characters Python's `str.strip()` / `str.split()` use
(restricted to the ASCII ones; the repository's strings are ASCII). -/
def isSpace (c : Char) : Bool :=
  c = ' ' || c = '\t' || c = '\n' || c = '\x0d' || c = '\x0b' || c = '\x0c'

/-- Python `str.strip()`. -/
def strip (s : String) : String :=
  ⟨(s.data.dropWhile isSpace).reverse.dropWhile isSpace |>.reverse⟩

/-- Helper for `words`: split a character list on whitespace runs. -/
def wordsAux : List Char → List Char → List String
  | cur, [] => if cur.isEmpty then [] else [⟨cur.reverse⟩]
  | cur, c :: rest =>
      if isSpace c then
        if cur.isEmpty then wordsAux [] rest
        else ⟨cur.reverse⟩ :: wordsAux [] rest
      else wordsAux (c :: cur) rest

/-- Python `str.split()` with no argument: split on whitespace runs,
no empty fields. -/
def words (s : String) : List String :=
  wordsAux [] s.data

/-- Python `s.split(sep)` for a one-character separator: all fields kept,
empty fields included. -/
def splitOnCharAux (sep : Char) : List Char → List Char → List String
  | cur, [] => [⟨cur.reverse⟩]
  | cur, c :: rest =>
      if c = sep then ⟨cur.reverse⟩ :: splitOnCharAux sep [] rest
      else splitOnCharAux sep (c :: cur) rest

/-- Python `s.split(sep)` with a one-character separator. -/
def splitOnChar (sep : Char) (s : String) : List String :=
  splitOnCharAux sep [] s.data

/-- Parse a non-empty all-digit string as a natural number (the reading used
for timestamp components). -/
def toNatQ (s : String) : Option Nat :=
  if s.data ≠ [] ∧ s.data.all (fun c => c.isDigit) then
    some (s.data.foldl (fun acc c => 10 * acc + (c.toNat - 48)) 0)
  else none

/-- Python `sep.join(parts)`. -/
def joinSep (sep : String) : List String → String
  | [] => ""
  | [x] => x
  | x :: rest => x ++ sep ++ joinSep sep rest

/-- Python `s.startswith(pre)`. -/
def startsWith (s pre : String) : Bool :=
  pre.data.isPrefixOf s.data

/-- Non-overlapping left-to-right replacement on character lists,
Python `s.replace(pat, rep)` (all patterns used in the repository are
non-empty, so the empty-pattern corner of Python's `replace` never arises).
The fuel argument is initialized to the list's length and never runs out:
a match consumes `pat.length ≥ 1` characters and a non-match one. -/
def replaceListGo (pat rep : List Char) : Nat → List Char → List Char
  | _, [] => []
  | 0, s => s
  | fuel + 1, c :: rest =>
      if pat ≠ [] ∧ pat.isPrefixOf (c :: rest) then
        rep ++ replaceListGo pat rep fuel ((c :: rest).drop pat.length)
      else
        c :: replaceListGo pat rep fuel rest

/-- Python `s.replace(pat, rep)`. -/
def replace (s pat rep : String) : String :=
  ⟨replaceListGo pat.data rep.data s.data.length s.data⟩

/-- A value in a Python answers dict: a string or a list of strings. -/
inductive AnswerVal where
  | str (s : String)
  | list (l : List String)
deriving DecidableEq, Repr

/-- An answers dict: association list keyed by question id
(Python dict keys are unique; lookups take the first binding). -/
def AnswerMap := List (String × AnswerVal)

instance : DecidableEq AnswerMap := by unfold AnswerMap; infer_instance

/-- Python `key in answers` for a dict. -/
def hasKey (m : AnswerMap) (k : String) : Bool :=
  m.any (fun p => p.1 = k)

/-- Python `answers.get(key)` returning `None` when absent. -/
def getVal (m : AnswerMap) (k : String) : Option AnswerVal :=
  (m.find? (fun p => p.1 = k)).map Prod.snd

/-- Python `answers.get(key, default)` where the default and the recorded
value are strings.  A list-valued binding would make the Python call sites
raise on the subsequent string method; such bindings never occur for the
string-valued question ids, and are mapped to the default here. -/
def getStrD (m : AnswerMap) (k dflt : String) : String :=
  match getVal m k with
  | some (.str s) => s
  | some (.list _) => dflt
  | none => dflt

/-- Python `x in v` where `v` came out of an answers dict: substring test
for a string value, exact membership for a list value. -/
def memVal (x : String) (v : AnswerVal) : Bool :=
  match v with
  | .str s => containsSub s x
  | .list l => l.contains x

/-- Stable insertion of `x` into `l` before the first element strictly
greater than `x` (so after all elements `x` is not strictly less than). -/
def stableInsert {α : Type} (lt : α → α → Bool) (x : α) : List α → List α
  | [] => [x]
  | y :: ys => if lt x y then x :: y :: ys else y :: stableInsert lt x ys

/-- Python's stable `list.sort` with a strict comparison derived from the
sort key: elements are inserted in original order, each after all elements
it is not strictly below, which reproduces the stable sort's output. -/
def stableSort {α : Type} (lt : α → α → Bool) (l : List α) : List α :=
  l.foldl (fun acc x => stableInsert lt x acc) []

/-- Python `max(pairs, key=value)`: first pair attaining the maximal value
(later pairs replace the best only when strictly greater). -/
def firstMaxByValue : List (String × Nat) → Option (String × Nat)
  | [] => none
  | p :: rest => some (rest.foldl (fun best x => if x.2 > best.2 then x else best) p)

end Py

namespace ScenePlanning

/-- Embeds `ScenePlanning._parse_duration`: map the duration answer to seconds
(bucket averages; default 180). -/
def parseDuration (durationAnswer : String) : Nat :=
  if Py.containsSub durationAnswer "15-30" then 25
  else if Py.containsSub durationAnswer "30-60" then 45
  else if Py.containsSub durationAnswer "1-3" then 120
  else if Py.containsSub durationAnswer "3-10" then 360
  else if Py.containsSub durationAnswer "10-30" then 1200
  else 180

/-- The `cuts_per_minute` lookup in `ScenePlanning.generate_plan`:
`{'slow': 8, 'medium': 15, 'fast': 30}.get(rhythm.lower().split()[0], 15)`.
A whitespace-only rhythm answer would make the Python subscript raise; every
rhythm answer in the catalog has a first word, and the empty case is mapped
to the dict default here. -/
def cutsPerMinute (rhythm : String) : Nat :=
  match Py.words (Py.lower rhythm) with
  | [] => 15
  | w :: _ => if w = "slow" then 8 else if w = "medium" then 15
              else if w = "fast" then 30 else 15

/-- Embeds `num_scenes = max(3, min(8, int((total_duration / 60) * cuts_per_minute / 4)))`.
The float expression `int((total/60)*cpm/4)` equals `total*cpm // 240` at every
reachable `(total, cpm)` pair (totals 25/45/120/360/1200/180, cpm 8/15/30;
checked exhaustively against IEEE-754 doubles). -/
def numScenes (totalDuration cpm : Nat) : Nat :=
  max 3 (min 8 (totalDuration * cpm / 240))

/-- Python `durations[-1] += d` (the caller's list is always non-empty). -/
def addToLast (d : Int) : List Int → List Int
  | [] => []
  | [x] => [x + d]
  | x :: y :: rest => x :: addToLast d (y :: rest)

/-- Embeds `ScenePlanning._calculate_scene_durations`: per-scene base `total // n`,
scaled by 1.2 (slow) or 0.8 (fast), rounding drift added to the last scene.
`int(base*1.2)` and `int(base*0.8)` equal `6*base/5` and `4*base/5` (floor) at
every reachable base (`total // n` for the six reachable totals and n in 3..8;
checked exhaustively against IEEE-754 doubles). -/
def calculateSceneDurations (totalDuration numScenes : Nat) (rhythm : String) : List Int :=
  let base : Int := (totalDuration / numScenes : Nat)
  let durations : List Int :=
    if Py.containsSub (Py.lower rhythm) "slow" then
      List.replicate numScenes (6 * base / 5)
    else if Py.containsSub (Py.lower rhythm) "fast" then
      List.replicate numScenes (4 * base / 5)
    else
      List.replicate numScenes base
  let currentTotal := durations.sum
  if currentTotal ≠ totalDuration then
    addToLast ((totalDuration : Int) - currentTotal) durations
  else
    durations

/-- Two-digit zero-padded rendering, Python `f"{n:02d}"` for `n < 100`
(every timestamp component in this program is below 60). -/
def pad2 (n : Nat) : String :=
  if n < 10 then "0" ++ toString n else toString n

/-- Embeds `ScenePlanning._seconds_to_timestamp`: `HH:MM:SS` from 3600s up,
else `MM:SS`. -/
def secondsToTimestamp (seconds : Nat) : String :=
  if seconds ≥ 3600 then
    pad2 (seconds / 3600) ++ ":" ++ pad2 (seconds % 3600 / 60) ++ ":" ++ pad2 (seconds % 60)
  else
    pad2 (seconds / 60) ++ ":" ++ pad2 (seconds % 60)

/-- Parse a `MM:SS` or `HH:MM:SS` timestamp back to seconds (the reading
direction of the spec's "timestamps must parse to non-negative seconds"). -/
def parseTimestamp (ts : String) : Option Nat :=
  match (Py.splitOnChar ':' ts).mapM Py.toNatQ with
  | some [m, s] => some (60 * m + s)
  | some [h, m, s] => some (3600 * h + 60 * m + s)
  | _ => none

/-- The running `current_time` walk of `ScenePlanning._generate_scenes`:
scene `i` spans `[current_time, current_time + duration_i)` and advances
`current_time` by `duration_i` (durations may be negative after the drift
correction; the walk is faithful to the source either way). -/
def sceneBounds (start : Int) : List Int → List (Int × Int)
  | [] => []
  | d :: rest => (start, start + d) :: sceneBounds (start + d) rest

/-- The `(start, end)` timestamp strings of the generated scenes, exactly as
`_generate_scenes` renders them.  Every generated bound is non-negative (the
only possibly-negative duration is the last, and the final end equals the
total), so rendering via `Int.toNat` agrees with the source. -/
def sceneTimestamps (durations : List Int) : List (String × String) :=
  (sceneBounds 0 durations).map
    (fun p => (secondsToTimestamp p.1.toNat, secondsToTimestamp p.2.toNat))

/-- The timing skeleton of `ScenePlanning.generate_plan`: resolve the total
duration, the cuts-per-minute, the scene count, the per-scene durations, and
the rendered start/end timestamps.  Platform and ending answers do not enter
any of these computations in the source. -/
def generatePlanTimes (durationAnswer rhythmAnswer : String) : List (String × String) :=
  let total := parseDuration durationAnswer
  let cpm := cutsPerMinute rhythmAnswer
  let n := numScenes total cpm
  sceneTimestamps (calculateSceneDurations total n rhythmAnswer)

end ScenePlanning

namespace PromptRefiner

/-- Issue text appended when vague timing words are present. -/
def issueTiming : String := "Contains vague timing words that need specification"

/-- Issue text appended for generic emotional descriptors. -/
def issueEmotions : String := "Emotional descriptors are too generic - needs specificity"

/-- Issue text appended when "video" is mentioned without technical details. -/
def issueTechnical : String := "Missing technical specifications (format, resolution, aspect ratio)"

/-- Issue text appended when no duration cue is present. -/
def issueDuration : String := "No duration or length constraints specified"

/-- Issue text appended when no platform cue is present. -/
def issuePlatform : String := "Target platform not specified (affects format and style decisions)"

/-- Issue text appended for vague action verbs. -/
def issueActions : String := "Action verbs are vague - needs specific editing actions"

/-- The `issues_detected` list of `PromptRefiner.analyze_prompt`: six fixed
pattern checks against the lowercased prompt, in source order. -/
def analyzeIssues (prompt : String) : List String :=
  let pl := Py.lower prompt
  (if ["soon", "later", "eventually", "sometime", "at some point"].any
      (fun w => Py.containsSub pl w) then [issueTiming] else []) ++
  (if ["good", "nice", "bad", "interesting", "emotional"].any
      (fun w => Py.containsSub pl w) then [issueEmotions] else []) ++
  (if Py.containsSub pl "video" &&
      !(["format", "resolution", "aspect ratio"].any (fun w => Py.containsSub pl w))
      then [issueTechnical] else []) ++
  (if !(["minute", "second", "hour", "length", "duration", "short", "long"].any
      (fun w => Py.containsSub pl w)) then [issueDuration] else []) ++
  (if !(["youtube", "tiktok", "instagram", "facebook", "twitter", "film", "cinema", "tv"].any
      (fun w => Py.containsSub pl w)) then [issuePlatform] else []) ++
  (if ["make", "do", "create something", "fix", "improve"].any
      (fun w => Py.containsSub pl w) then [issueActions] else [])

/-- Embeds `PromptRefiner._calculate_complexity`: word-count bucket plus count of
technical terms, capped at 10. -/
def complexityScore (prompt : String) : Nat :=
  min ((Py.words prompt).length / 10 +
    (["transition", "color grade", "sound design", "b-roll", "montage"].countP
      (fun t => Py.containsSub (Py.lower prompt) t))) 10

/-- Python `str(issues)` for the issue lists of this module: the `repr` of a
list of strings, `['a', 'b']` (none of the fixed issue strings contains a
quote, so no escaping arises). -/
def reprStrList (xs : List String) : String :=
  "[" ++ Py.joinSep ", " (xs.map (fun s => "'" ++ s ++ "'")) ++ "]"

/-- Python `improved[0].upper() + improved[1:]` (the caller guarantees the
string is non-empty; ASCII uppercase). -/
def upperFirst (s : String) : String :=
  match s.data with
  | [] => ""
  | c :: rest => ⟨c.toUpper :: rest⟩

/-- Embeds `PromptRefiner.improve_prompt`: returns the improved text and the list of
improvement notes.  The branch conditions test substring containment in
`str(issues).lower()` exactly as the source does. -/
def improvePrompt (prompt : String) (issues : List String) (complexity : Nat) :
    String × List String :=
  let issuesStr := Py.lower (reprStrList issues)
  let base := Py.strip prompt
  let improved :=
    if !(["Goal:", "Objective:", "I want to"].any (fun m => Py.containsSub base m)) then
      "Goal: " ++ upperFirst base
    else base
  let step1 :=
    if Py.containsSub issuesStr "vague timing" then
      (improved ++ "\n- Timing: Specific timestamps or sequence to be defined",
       ["Added timing specification placeholder"])
    else (improved, [])
  let step2 :=
    if Py.containsSub issuesStr "emotional descriptors" then
      (step1.1 ++ "\n- Emotional tone: [Specify exact emotion - e.g., melancholic, triumphant, suspenseful]",
       step1.2 ++ ["Requested specific emotional tone clarification"])
    else step1
  let step3 :=
    if Py.containsSub issuesStr "technical specifications" then
      (step2.1 ++ "\n- Technical: [Format: 16:9/9:16/1:1], [Resolution: 1080p/4K], [Frame rate if relevant]",
       step2.2 ++ ["Added technical specification section"])
    else step2
  let step4 :=
    if Py.containsSub issuesStr "duration" then
      (step3.1 ++ "\n- Duration: [Target length - e.g., 30 seconds, 2 minutes, feature length]",
       step3.2 ++ ["Added duration constraint placeholder"])
    else step3
  let step5 :=
    if Py.containsSub issuesStr "platform" then
      (step4.1 ++ "\n- Platform: [YouTube/TikTok/Instagram/Film/etc.] - affects pacing and format",
       step4.2 ++ ["Added platform specification for format decisions"])
    else step4
  let step6 :=
    if Py.containsSub issuesStr "vague action" then
      (Py.replace (Py.replace step5.1 "make a video" "edit raw footage into a cinematic sequence")
        "create something" "produce a narrative-driven edit",
       step5.2 ++ ["Replaced vague action verbs with specific editing terminology"])
    else step5
  if complexity > 3 then
    (step6.1 ++ "\n- Quality: Professional cinematic standards with attention to pacing, audio sync, and visual flow",
     step6.2 ++ ["Added quality standards specification"])
  else step6

/-- The record returned by `PromptRefiner.refine` /
`PromptRefiner.refine_with_feedback`. -/
structure RefineResult where
  originalPrompt : String
  improvedPrompt : String
  issuesDetected : List String
  improvementsMade : List String
  userActionRequired : String
deriving DecidableEq, Repr

/-- Embeds `PromptRefiner.refine`: empty or whitespace-only input short-circuits to
the fixed "Empty prompt provided" record; otherwise the issues are detected,
the prompt improved, and `revise` is required iff more than two issues were
detected. -/
def refine (originalPrompt : String) : RefineResult :=
  if Py.strip originalPrompt = "" then
    { originalPrompt := ""
      improvedPrompt := ""
      issuesDetected := ["Empty prompt provided"]
      improvementsMade := []
      userActionRequired := "revise" }
  else
    let issues := analyzeIssues originalPrompt
    let complexity := complexityScore originalPrompt
    let improved := improvePrompt originalPrompt issues complexity
    { originalPrompt := originalPrompt
      improvedPrompt := improved.1
      issuesDetected := issues
      improvementsMade := improved.2
      userActionRequired := if issues.length > 2 then "revise" else "accept" }

end PromptRefiner

namespace Questioning

/-- A catalog entry of `IntelligentQuestioning.question_templates`. -/
structure QTemplate where
  id : String
  category : String
  question : String
  qtype : String
  options : Option (List String)
  required : Bool
  helpText : Option String
  condition : Option String := none
deriving DecidableEq, Repr

/-- A generated `Question` (the pydantic model's fields used by the core). -/
structure Question where
  id : String
  category : String
  question : String
  qtype : String
  options : Option (List String)
  required : Bool
  helpText : Option String
deriving DecidableEq, Repr

/-- Embeds `IntelligentQuestioning.question_templates`: the fixed catalog, keyed by
template key, in source order. -/
def questionTemplates (key : String) : Option QTemplate :=
  if key = "format" then some
    { id := "video_format", category := "format",
      question := "What video format do you need?", qtype := "single_choice",
      options := some ["16:9 (Landscape - YouTube, Film, TV)",
        "9:16 (Portrait - TikTok, Instagram Reels, Stories)",
        "1:1 (Square - Instagram Feed, Facebook)"],
      required := true,
      helpText := some "This determines the aspect ratio and framing of your video" }
  else if key = "platform" then some
    { id := "target_platform", category := "platform",
      question := "Which platform is this video for?", qtype := "single_choice",
      options := some ["YouTube (long-form, 16:9)", "TikTok (short-form, 9:16, fast-paced)",
        "Instagram Reels (9:16, trendy)", "Instagram Feed (1:1 or 4:5)",
        "Facebook (various)", "Cinema/Film (16:9, high quality)",
        "TV Broadcast (16:9, standard)", "Internal/Private (flexible)"],
      required := true,
      helpText := some "Platform affects pacing, style, and technical requirements" }
  else if key = "duration" then some
    { id := "target_duration", category := "duration",
      question := "What is your target duration?", qtype := "single_choice",
      options := some ["15-30 seconds (Short social media)", "30-60 seconds (Standard social)",
        "1-3 minutes (YouTube short/Medium)", "3-10 minutes (Long YouTube)",
        "10-30 minutes (Extended content)", "Feature length (30+ minutes)"],
      required := true,
      helpText := some "Duration affects pacing and how much content we can include" }
  else if key = "rhythm" then some
    { id := "editing_rhythm", category := "rhythm",
      question := "What editing rhythm do you prefer?", qtype := "single_choice",
      options := some ["Slow (contemplative, long takes, artistic)",
        "Medium (balanced, standard pacing)", "Fast (dynamic, quick cuts, energetic)",
        "Variable (mix of paces for emotional effect)"],
      required := true,
      helpText := some "Rhythm sets the overall energy and feel of the edit" }
  else if key = "tone" then some
    { id := "emotional_tone", category := "tone",
      question := "What is the primary emotional tone?", qtype := "single_choice",
      options := some ["Joyful / Uplifting", "Melancholic / Sad", "Suspenseful / Tense",
        "Romantic / Tender", "Inspirational / Motivational", "Nostalgic / Reflective",
        "Energetic / Exciting", "Calm / Peaceful", "Dramatic / Intense", "Humorous / Light"],
      required := true,
      helpText := some "The emotional tone guides music selection, pacing, and color grading" }
  else if key = "music" then some
    { id := "music_style", category := "music",
      question := "What music style should accompany the video?", qtype := "single_choice",
      options := some ["Cinematic orchestral", "Electronic / Synth", "Acoustic / Folk",
        "Jazz / Blues", "Rock / Alternative", "Hip-hop / Rap", "Classical",
        "Ambient / Atmospheric", "Pop / Modern", "No music (dialogue only)",
        "Custom (specify in notes)"],
      required := false,
      helpText := some "Music significantly impacts the emotional impact" }
  else if key = "voice_over" then some
    { id := "voice_over_needed", category := "voice_over",
      question := "Do you need voice-over narration?", qtype := "single_choice",
      options := some ["Yes, single voice", "Yes, multiple voices", "No voice-over needed"],
      required := false,
      helpText := some "Voice-over can guide the narrative and add professional polish" }
  else if key = "voice_language" then some
    { id := "voice_language", category := "voice_over",
      question := "What language for the voice-over?", qtype := "single_choice",
      options := some ["English", "Spanish", "French", "German", "Italian", "Portuguese",
        "Chinese", "Japanese", "Other (specify)"],
      required := false,
      helpText := some "Language affects voice talent selection",
      condition := some "voice_over_needed:Yes" }
  else if key = "voice_gender" then some
    { id := "voice_gender", category := "voice_over",
      question := "Preferred voice gender?", qtype := "single_choice",
      options := some ["Male", "Female", "Non-binary / Androgynous", "No preference"],
      required := false,
      helpText := some "Voice characteristics affect the feel of the narration",
      condition := some "voice_over_needed:Yes" }
  else if key = "voice_age" then some
    { id := "voice_age", category := "voice_over",
      question := "Preferred voice age range?", qtype := "single_choice",
      options := some ["Young (18-25)", "Adult (25-40)", "Middle-aged (40-55)",
        "Senior (55+)", "No preference"],
      required := false,
      helpText := some "Age range affects voice casting",
      condition := some "voice_over_needed:Yes" }
  else if key = "subtitles" then some
    { id := "subtitles_enabled", category := "subtitles",
      question := "Do you need subtitles?", qtype := "single_choice",
      options := some ["Yes, burned-in (permanent on video)", "Yes, SRT file (separate, optional)",
        "No subtitles needed"],
      required := false,
      helpText := some "Subtitles improve accessibility and engagement" }
  else if key = "subtitle_style" then some
    { id := "subtitle_style", category := "subtitles",
      question := "What subtitle style?", qtype := "single_choice",
      options := some ["Cinematic (elegant, minimal)", "Social Media (bold, colorful)",
        "Professional (clean, readable)", "Minimal (small, unobtrusive)", "Custom (specify)"],
      required := false,
      helpText := some "Style should match your platform and tone",
      condition := some "subtitles_enabled:Yes" }
  else if key = "ending" then some
    { id := "ending_style", category := "ending",
      question := "How should the video end?", qtype := "single_choice",
      options := some ["Closed ending (clear resolution)", "Open ending (thought-provoking)",
        "Call-to-action (subscribe, visit, etc.)", "Cliffhanger (continued in next video)",
        "Circular (returns to opening)", "Emotional peak (strong feeling)",
        "Informational summary"],
      required := false,
      helpText := some "The ending shapes how viewers remember your video" }
  else if key = "color_grade" then some
    { id := "color_grade", category := "style",
      question := "Preferred color grading style?", qtype := "single_choice",
      options := some ["Natural / Realistic", "Warm / Golden", "Cool / Blue tones",
        "High contrast / Dramatic", "Desaturated / Muted", "Vibrant / Saturated",
        "Black & White", "Vintage / Film look", "Teal & Orange (cinematic)",
        "Custom (specify)"],
      required := false,
      helpText := some "Color grading sets the visual mood" }
  else if key = "source_material" then some
    { id := "source_material", category := "technical",
      question := "What is your source footage like?", qtype := "multiple_choice",
      options := some ["Single continuous take", "Multiple camera angles", "Interview footage",
        "B-roll / supplementary footage", "Screen recordings", "Mobile phone footage",
        "Professional camera footage", "Mixed sources"],
      required := true,
      helpText := some "Helps determine editing approach and technical requirements" }
  else none

/-- Embeds `IntelligentQuestioning.detect_missing_info`: each category is missing
when neither a trigger keyword occurs in the lowercased prompt nor the answer
key exists; `source_material` is requested whenever unanswered.  Categories
appear in source order. -/
def detectMissingInfo (prompt : String) (answers : Py.AnswerMap) : List String :=
  let pl := Py.lower prompt
  (if !(["16:9", "9:16", "1:1", "landscape", "portrait", "square"].any
        (fun w => Py.containsSub pl w)) && !(Py.hasKey answers "video_format")
     then ["format"] else []) ++
  (if !(["youtube", "tiktok", "instagram", "facebook", "film", "cinema", "tv"].any
        (fun w => Py.containsSub pl w)) && !(Py.hasKey answers "target_platform")
     then ["platform"] else []) ++
  (if !(["minute", "second", "hour", "min", "sec", "long", "short"].any
        (fun w => Py.containsSub pl w)) && !(Py.hasKey answers "target_duration")
     then ["duration"] else []) ++
  (if !(["slow", "fast", "quick", "paced", "rhythm", "dynamic", "calm"].any
        (fun w => Py.containsSub pl w)) && !(Py.hasKey answers "editing_rhythm")
     then ["rhythm"] else []) ++
  (if !(["emotional", "happy", "sad", "exciting", "dramatic", "funny", "serious"].any
        (fun w => Py.containsSub pl w)) && !(Py.hasKey answers "emotional_tone")
     then ["tone"] else []) ++
  (if !(["music", "song", "soundtrack", "audio"].any
        (fun w => Py.containsSub pl w)) && !(Py.hasKey answers "music_style")
     then ["music"] else []) ++
  (if !(["voice", "narration", "narrator", "speak", "tell"].any
        (fun w => Py.containsSub pl w)) && !(Py.hasKey answers "voice_over_needed")
     then ["voice_over"] else []) ++
  (if !(["subtitle", "caption", "text on screen"].any
        (fun w => Py.containsSub pl w)) && !(Py.hasKey answers "subtitles_enabled")
     then ["subtitles"] else []) ++
  (if !(["end", "finish", "conclude", "close", "wrap up"].any
        (fun w => Py.containsSub pl w)) && !(Py.hasKey answers "ending_style")
     then ["ending"] else []) ++
  (if !(Py.hasKey answers "source_material") then ["source_material"] else [])

/-- Instantiate a template for one missing category: templates with an unmet
`key:expected-substring` condition are skipped (`continue`), unknown
categories are skipped (`if category in self.question_templates`). -/
def instantiateCategory (answers : Py.AnswerMap) (category : String) : Option Question :=
  match questionTemplates category with
  | none => none
  | some t =>
      let conditionMet :=
        match t.condition with
        | none => true
        | some cond =>
            -- `condition_key, condition_value = template['condition'].split(':')`
            -- (every catalog condition has exactly one `:`)
            match Py.splitOnChar ':' cond with
            | [ckey, cval] => Py.containsSub (Py.getStrD answers ckey "") cval
            | _ => false
      if conditionMet then
        some { id := t.id, category := t.category, question := t.question,
               qtype := t.qtype, options := t.options, required := t.required,
               helpText := t.helpText }
      else none

/-- The sort comparison of `questions.sort(key=lambda q: (not q.required, q.id))`:
strict lexicographic order on the key tuple (`False < True` on booleans,
code-point order on ids). -/
def questionSortLt (a b : Question) : Bool :=
  (a.required && !b.required) || ((a.required == b.required) && decide (a.id < b.id))

/-- Embeds `IntelligentQuestioning.generate_questions`: instantiate the missing
categories and stably sort required questions first, ties by id. -/
def generateQuestions (prompt : String) (answers : Py.AnswerMap) : List Question :=
  Py.stableSort questionSortLt
    ((detectMissingInfo prompt answers).filterMap (instantiateCategory answers))

/-- Embeds `IntelligentQuestioning.check_completeness`: true iff there are no
required questions or at least 80% of them have a recorded answer.  The
Python comparison `answered_required >= len(required_questions) * 0.8` on
IEEE-754 doubles coincides with the exact `5 * answered >= 4 * required` for
every list length below 2^53 (the double `0.8` is `0.8 + d` with
`0 < d < 2^-53 * 0.8`, so `n * 0.8` rounds to exact `4n/5` when `5 | n` and
lies strictly between neighbouring integers otherwise). -/
def checkCompleteness (questions : List Question) (answers : Py.AnswerMap) : Bool :=
  let requiredQuestions := questions.filter (fun q => q.required)
  if requiredQuestions.isEmpty then true
  else
    let answeredRequired := requiredQuestions.countP (fun q => Py.hasKey answers q.id)
    decide (5 * answeredRequired ≥ 4 * requiredQuestions.length)

end Questioning

namespace Narrative

/-- Embeds `NarrativeReasoning.narrative_archetypes`: the fixed `(name, description)`
catalog, in dict insertion order. -/
def narrativeArchetypes : List (String × String) :=
  [("hero_journey", "Protagonist overcomes challenges to achieve goal"),
   ("transformation", "Character undergoes significant internal change"),
   ("love_story", "Relationship develops through obstacles"),
   ("tragedy", "Downward arc ending in loss or failure"),
   ("comedy", "Humorous situations leading to happy resolution"),
   ("mystery", "Unknown revealed through investigation"),
   ("documentary", "Informational with emotional human element"),
   ("montage", "Collection of moments showing progression"),
   ("interview", "Personal story told through dialogue"),
   ("event_coverage", "Chronological documentation with highlights")]

/-- Keyword score of one archetype against the lowercased prompt: +3 for the
space-separated name, +3 for the raw name, +1 for each description word
longer than 4 characters occurring in the prompt. -/
def arcScoreOf (pl name desc : String) : Nat :=
  (if Py.containsSub pl (Py.replace name "_" " ") then 3 else 0) +
  (if Py.containsSub pl name then 3 else 0) +
  (Py.words (Py.lower desc)).countP
    (fun kw => Py.containsSub pl kw && decide (kw.length > 4))

/-- Add `d` to the score bound to `k` (Python `arc_scores[k] = arc_scores.get(k, 0) + d`;
every adjusted key is present, and dict order is unchanged by updates). -/
def bumpScore (k : String) (d : Nat) (l : List (String × Nat)) : List (String × Nat) :=
  l.map (fun p => if p.1 = k then (p.1, p.2 + d) else p)

/-- The `arc_scores` dict of `NarrativeReasoning.identify_narrative_arc`
after the keyword pass and the tone / source-material adjustments,
as an association list in dict insertion order. -/
def arcScores (prompt : String) (answers : Py.AnswerMap) : List (String × Nat) :=
  let pl := Py.lower prompt
  let base := narrativeArchetypes.map (fun p => (p.1, arcScoreOf pl p.1 p.2))
  let tone := Py.lower (Py.getStrD answers "emotional_tone" "")
  let source := (Py.getVal answers "source_material").getD (.list [])
  let s1 := if Py.containsSub tone "tragedy" || Py.containsSub tone "sad" ||
               Py.containsSub tone "melancholic" then bumpScore "tragedy" 2 base else base
  let s2 := if Py.containsSub tone "inspirational" || Py.containsSub tone "motivational"
              then bumpScore "hero_journey" 2 s1 else s1
  let s3 := if Py.containsSub tone "romantic" || Py.containsSub tone "love"
              then bumpScore "love_story" 2 s2 else s2
  let s4 := if Py.memVal "interview footage" source then bumpScore "interview" 3 s3 else s3
  if Py.memVal "b-roll" source && Py.memVal "interview" source
    then bumpScore "documentary" 2 s4 else s4

/-- The content-based default of `identify_narrative_arc` (applied to the
lowercased prompt): interview keyword, then travel/event keywords, else
documentary. -/
def contentDefault (pl : String) : String :=
  if Py.containsSub pl "interview" then "interview"
  else if ["wedding", "event", "vacation", "trip"].any (fun w => Py.containsSub pl w)
    then "montage"
  else "documentary"

/-- Embeds `NarrativeReasoning.identify_narrative_arc`: Python's `max` over the
score dict (first key attaining the maximum) when that maximum is positive,
else the content-based default. -/
def identifyNarrativeArc (prompt : String) (answers : Py.AnswerMap) : String :=
  let pl := Py.lower prompt
  match Py.firstMaxByValue (arcScores prompt answers) with
  | some (bestArc, bestScore) =>
      if bestScore > 0 then bestArc else contentDefault pl
  | none => contentDefault pl

/-- One beat of the emotional progression (`intensity` is stored as an exact
rational; every intensity in the source is a decimal literal, and every
comparison the program performs on them gives the same result in IEEE-754
doubles and in ℚ). -/
structure Beat where
  beat : String
  emotion : String
  intensity : ℚ
  pacing : String
deriving DecidableEq, Repr

/-- Python `progression[-1] = f(progression[-1])` on a non-empty list. -/
def updateLast {α : Type} (f : α → α) : List α → List α
  | [] => []
  | [x] => [f x]
  | x :: y :: rest => x :: updateLast f (y :: rest)

/-- Embeds `NarrativeReasoning.map_emotional_progression`: fixed 5-beat tables
selected by `'slow' in rhythm` / `'fast' in rhythm` (case-sensitive, as in
the source), with the resolution beat overridden by an open / cliffhanger
ending style. -/
def mapEmotionalProgression (answers : Py.AnswerMap) : List Beat :=
  let tone := Py.getStrD answers "emotional_tone" "neutral"
  let rhythm := Py.getStrD answers "editing_rhythm" "medium"
  let progression : List Beat :=
    if Py.containsSub rhythm "slow" then
      [⟨"hook", "curiosity", 3/10, "slow"⟩,
       ⟨"setup", tone, 4/10, "slow"⟩,
       ⟨"rising_action", tone, 5/10, "medium"⟩,
       ⟨"climax", "intense_" ++ tone, 7/10, "slow"⟩,
       ⟨"resolution", "peaceful", 3/10, "very_slow"⟩]
    else if Py.containsSub rhythm "fast" then
      [⟨"hook", "excitement", 7/10, "fast"⟩,
       ⟨"setup", tone, 5/10, "fast"⟩,
       ⟨"rising_action", "building_" ++ tone, 8/10, "very_fast"⟩,
       ⟨"climax", "peak_" ++ tone, 1, "fast"⟩,
       ⟨"resolution", "satisfaction", 6/10, "medium"⟩]
    else
      [⟨"hook", "interest", 5/10, "medium"⟩,
       ⟨"setup", tone, 4/10, "medium"⟩,
       ⟨"rising_action", "developing_" ++ tone, 6/10, "medium"⟩,
       ⟨"climax", "intense_" ++ tone, 9/10, "medium_fast"⟩,
       ⟨"resolution", "fulfillment", 5/10, "slow"⟩]
  let ending := Py.getStrD answers "ending_style" ""
  if Py.containsSub (Py.lower ending) "open" then
    updateLast (fun b => { b with emotion := "contemplation", intensity := 4/10 }) progression
  else if Py.containsSub (Py.lower ending) "cliffhanger" then
    updateLast (fun b => { b with emotion := "suspense", intensity := 8/10 }) progression
  else progression

/-- One record of the externally supplied `visual_analysis['scenes']` list;
the four attributes are dict lookups that may be absent. -/
structure VScene where
  lighting : Option String := none
  colorPalette : Option String := none
  movement : Option String := none
  scale : Option String := none
deriving DecidableEq, Repr

/-- A detected scene contrast. -/
structure ContrastRec where
  betweenScenes : Nat × Nat
  contrastTypes : List String
  emotionalFrom : String
  emotionalTo : String
  recommendedTransition : String
deriving DecidableEq, Repr

/-- The contrast record for the adjacent pair at index `i`. -/
def contrastAt (progression : List Beat) (i : Nat) (cur next : VScene) :
    Option ContrastRec :=
  let contrastTypes :=
    (if cur.lighting ≠ next.lighting then ["lighting"] else []) ++
    (if cur.colorPalette ≠ next.colorPalette then ["color"] else []) ++
    (if cur.movement ≠ next.movement then ["movement"] else []) ++
    (if cur.scale ≠ next.scale then ["scale"] else [])
  if contrastTypes.isEmpty then none
  else
    -- `emotional_progression[min(i, len-1)]`; the progression passed by
    -- `analyze` always has five beats, so the clamped index is in range.
    let beatAt := fun j => (progression.getD (min j (progression.length - 1))
      ⟨"", "", 0, ""⟩).emotion
    some { betweenScenes := (i, i + 1)
           contrastTypes := contrastTypes
           emotionalFrom := beatAt i
           emotionalTo := beatAt (i + 1)
           recommendedTransition :=
             if contrastTypes.contains "movement" then "cut" else "fade" }

/-- Embeds `NarrativeReasoning.analyze_scene_contrasts` over the visual scenes list
(a falsy `visual_analysis` and a missing `scenes` key both yield the empty
list, as in the source; fewer than two scenes yield no contrasts). -/
def analyzeSceneContrasts (scenes : List VScene) (progression : List Beat) :
    List ContrastRec :=
  if scenes.length ≥ 2 then
    (List.range (scenes.length - 1)).filterMap
      (fun i => contrastAt progression i (scenes.getD i {}) (scenes.getD (i + 1) {}))
  else []

/-- The duration lookup inside `NarrativeReasoning.calculate_pacing`
(§4.3 table: bucket upper bounds; default 180). -/
def pacingDurationSeconds (durationAnswer : String) : Nat :=
  if Py.containsSub durationAnswer "15-30" then 30
  else if Py.containsSub durationAnswer "30-60" then 60
  else if Py.containsSub durationAnswer "1-3" then 180
  else if Py.containsSub durationAnswer "3-10" then 600
  else if Py.containsSub durationAnswer "10-30" then 1800
  else 180

/-- One entry of the per-beat rhythm pattern. -/
structure RhythmBeat where
  beat : String
  cutsPerMinute : Nat
  pacing : String
  intensity : ℚ
deriving DecidableEq, Repr

/-- Embeds `NarrativeReasoning._generate_rhythm_pattern`: scale the base
cuts-per-minute by 1.5 above 0.8 intensity and 0.6 below 0.4
(`int(base*1.5)` and `int(base*0.6)` equal `3*base/2` and `3*base/5` floor
for every reachable base; checked against IEEE-754 doubles). -/
def generateRhythmPattern (progression : List Beat) (baseCpm : Nat) : List RhythmBeat :=
  progression.map (fun b =>
    { beat := b.beat
      cutsPerMinute :=
        if b.intensity > (8/10 : ℚ) then 3 * baseCpm / 2
        else if b.intensity < (4/10 : ℚ) then 3 * baseCpm / 5
        else baseCpm
      pacing := b.pacing
      intensity := b.intensity })

/-- The pacing recommendation record. -/
structure PacingRec where
  totalDurationSeconds : Nat
  cutsPerMinute : Nat
  estimatedTotalCuts : Nat
  averageShotLengthSeconds : Nat
  rhythmPattern : List RhythmBeat
deriving DecidableEq, Repr

/-- Embeds `NarrativeReasoning.calculate_pacing`: §4.3 duration lookup, exact-match
rhythm dict (default 15), TikTok/Reels floor of 25, derived cut counts
(`int((seconds/60)*cpm)` equals `seconds*cpm/60` floor and `int(60/cpm)`
equals `60/cpm` floor at every reachable value; checked against IEEE-754
doubles). -/
def calculatePacing (answers : Py.AnswerMap) (progression : List Beat) : PacingRec :=
  let durationAnswer := Py.getStrD answers "target_duration" ""
  let rhythm := Py.getStrD answers "editing_rhythm" "medium"
  let durationSeconds := pacingDurationSeconds durationAnswer
  let baseCpm := if rhythm = "slow" then 8 else if rhythm = "medium" then 15
                 else if rhythm = "fast" then 30 else 15
  let platform := Py.getStrD answers "target_platform" ""
  let cpm := if Py.containsSub (Py.lower platform) "tiktok" ||
                Py.containsSub (Py.lower platform) "reels"
             then max baseCpm 25 else baseCpm
  { totalDurationSeconds := durationSeconds
    cutsPerMinute := cpm
    estimatedTotalCuts := durationSeconds * cpm / 60
    averageShotLengthSeconds := 60 / cpm
    rhythmPattern := generateRhythmPattern progression cpm }

/-- Embeds `NarrativeReasoning.detect_symbolism`: six keyword-to-symbol families
over the lowercased prompt, joined with "; ", or `None`. -/
def detectSymbolism (prompt : String) : Option String :=
  let pl := Py.lower prompt
  let symbols :=
    (if ["journey", "travel", "road", "path"].any (fun w => Py.containsSub pl w)
      then ["Journey/Path = Life's progression or personal growth"] else []) ++
    (if ["light", "sun", "bright", "dark", "shadow"].any (fun w => Py.containsSub pl w)
      then ["Light/Dark = Hope/despair, knowledge/ignorance, good/evil"] else []) ++
    (if ["water", "ocean", "river", "rain"].any (fun w => Py.containsSub pl w)
      then ["Water = Emotions, purification, life flow"] else []) ++
    (if ["mountain", "climb", "peak", "height"].any (fun w => Py.containsSub pl w)
      then ["Mountains/Height = Challenges, achievement, perspective"] else []) ++
    (if ["door", "gate", "entrance", "threshold"].any (fun w => Py.containsSub pl w)
      then ["Doors/Gates = New opportunities, transitions, choices"] else []) ++
    (if ["mirror", "reflection", "glass"].any (fun w => Py.containsSub pl w)
      then ["Mirrors = Self-reflection, truth, identity"] else [])
  if symbols.isEmpty then none else some (Py.joinSep "; " symbols)

/-- The internal analysis block (kept for faithfulness; never exposed). -/
structure InternalAnalysis where
  arcConfidence : String
  emotionalBeatsCount : Nat
  contrastOpportunities : Nat
  pacingNotes : String
deriving DecidableEq, Repr

/-- The dict returned by `NarrativeReasoning.analyze`. -/
structure AnalysisResult where
  narrativeArc : String
  emotionalProgression : List Beat
  dominantTone : String
  pacingRecommendation : PacingRec
  sceneContrasts : List ContrastRec
  symbolismNotes : Option String
  internalAnalysis : InternalAnalysis
deriving DecidableEq, Repr

/-- Embeds `NarrativeReasoning.analyze` (the transcription argument is unused by
every sub-computation; the visual analysis enters only through its scenes
list). -/
def analyze (prompt : String) (answers : Py.AnswerMap) (visualScenes : List VScene) :
    AnalysisResult :=
  let narrativeArc := identifyNarrativeArc prompt answers
  let progression := mapEmotionalProgression answers
  let contrasts := analyzeSceneContrasts visualScenes progression
  let pacing := calculatePacing answers progression
  { narrativeArc := narrativeArc
    emotionalProgression := progression
    dominantTone := Py.getStrD answers "emotional_tone" "neutral"
    pacingRecommendation := pacing
    sceneContrasts := contrasts
    symbolismNotes := detectSymbolism prompt
    internalAnalysis :=
      { arcConfidence := if narrativeArc ≠ "documentary" then "high" else "medium"
        emotionalBeatsCount := progression.length
        contrastOpportunities := contrasts.length
        pacingNotes := "Base rhythm: " ++ toString pacing.cutsPerMinute ++ " cuts/min" } }

end Narrative

namespace ScenePlanning

/-- Embeds `ScenePlanning._determine_format`. -/
def determineFormat (platform : String) : String :=
  let pl := Py.lower platform
  if Py.containsSub pl "tiktok" || Py.containsSub pl "reels" || Py.containsSub pl "stories"
    then "9:16"
  else if Py.containsSub pl "instagram" && Py.containsSub pl "feed" then "1:1"
  else "16:9"

/-- One synthesized voice profile. -/
structure Voice where
  gender : String
  language : String
  age : String
  text : String
deriving DecidableEq, Repr

/-- The voice-over configuration. -/
structure VoiceOver where
  enabled : Bool
  voices : List Voice
deriving DecidableEq, Repr

/-- Embeds `ScenePlanning._generate_voice_over_config`. -/
def generateVoiceOverConfig (answers : Py.AnswerMap) : VoiceOver :=
  let voiceNeeded := Py.getStrD answers "voice_over_needed" "No voice-over needed"
  if Py.containsSub voiceNeeded "Yes" then
    if Py.containsSub (Py.lower voiceNeeded) "single" then
      { enabled := true
        voices := [{
          gender := Py.replace (Py.lower (Py.getStrD answers "voice_gender" "No preference")) " " "_"
          language := Py.lower (Py.getStrD answers "voice_language" "English")
          age := Py.replace (Py.replace (Py.replace
            (Py.lower (Py.getStrD answers "voice_age" "Adult")) "(" "") ")" "") "-" "_"
          text := "" }] }
    else
      { enabled := true
        voices := [
          { gender := "male", language := Py.lower (Py.getStrD answers "voice_language" "English")
            age := "adult", text := "" },
          { gender := "female", language := Py.lower (Py.getStrD answers "voice_language" "English")
            age := "adult", text := "" }] }
  else { enabled := false, voices := [] }

/-- The subtitle configuration. -/
structure Subtitles where
  enabled : Bool
  type : Option String
  style : Option String
deriving DecidableEq, Repr

/-- Embeds `ScenePlanning._generate_subtitle_config`. -/
def generateSubtitleConfig (answers : Py.AnswerMap) : Subtitles :=
  let subs := Py.getStrD answers "subtitles_enabled" "No subtitles needed"
  if Py.containsSub subs "Yes" then
    { enabled := true
      type := some (if Py.containsSub (Py.lower subs) "burned" then "burned" else "srt")
      style := some (Py.replace (Py.lower (Py.getStrD answers "subtitle_style" "Professional")) " " "_") }
  else { enabled := false, type := none, style := none }

/-- Embeds `ScenePlanning._generate_title`: exact-word triggers from the lowercased
request, then the first matching tone label, else the generic fallback. -/
def generateTitle (solicitud tone : String) : String :=
  let ws := Py.words (Py.lower solicitud)
  if ws.contains "interview" then "Voices: A Personal Story"
  else if ws.contains "wedding" then "Forever Begins"
  else if ws.contains "travel" || ws.contains "vacation" || ws.contains "trip"
    then "Wanderlust: A Journey Captured"
  else if ws.contains "documentary" then "The Untold Story"
  else if ws.contains "product" || ws.contains "commercial" then "Innovation Revealed"
  else if ws.contains "event" then "The Moment"
  else
    let tl := Py.lower tone
    if Py.containsSub tl "joyful" then "Radiance"
    else if Py.containsSub tl "melancholic" then "Echoes of Yesterday"
    else if Py.containsSub tl "suspenseful" then "The Edge"
    else if Py.containsSub tl "romantic" then "Two Hearts"
    else if Py.containsSub tl "inspirational" then "Rise"
    else if Py.containsSub tl "nostalgic" then "Time Remembered"
    else if Py.containsSub tl "energetic" then "Momentum"
    else if Py.containsSub tl "calm" then "Serenity"
    else if Py.containsSub tl "dramatic" then "The Turning Point"
    else "The Edit"

/-- Embeds `ScenePlanning._generate_theme`: theme by narrative arc. -/
def generateTheme (arc : String) : String :=
  if arc = "hero_journey" then "Personal transformation through challenge and triumph"
  else if arc = "transformation" then "Internal change and self-discovery"
  else if arc = "love_story" then "Connection and relationship development"
  else if arc = "tragedy" then "Loss, reflection, and emotional truth"
  else if arc = "comedy" then "Joy, humor, and lighthearted moments"
  else if arc = "mystery" then "Discovery and revelation"
  else if arc = "documentary" then "Authentic human experience and truth"
  else if arc = "montage" then "Time, memory, and progression"
  else if arc = "interview" then "Personal narrative and intimate perspective"
  else if arc = "event_coverage" then "Celebration and shared experience"
  else "Human experience captured through cinematic lens"

/-- Embeds `ScenePlanning._generate_style`. -/
def generateStyle (answers : Py.AnswerMap) : String :=
  let rhythm := Py.getStrD answers "editing_rhythm" "Medium"
  let tone := Py.getStrD answers "emotional_tone" "neutral"
  let color := Py.getStrD answers "color_grade" "Natural"
  let rhythmPart :=
    if Py.containsSub (Py.lower rhythm) "slow" then
      "Contemplative pacing with deliberate, measured cuts"
    else if Py.containsSub (Py.lower rhythm) "fast" then
      "Dynamic, energetic editing with rapid cuts"
    else "Balanced rhythm with natural flow"
  Py.joinSep "; " [rhythmPart, Py.lower tone ++ " emotional tone",
    Py.lower color ++ " color palette"]

/-- Embeds `list.insert(2, 'rising_action')` on the stage template (the template
always has at least two stages). -/
def insertRising : List String → List String
  | a :: b :: rest => a :: b :: "rising_action" :: rest
  | l => l ++ ["rising_action"]

/-- Iterate `insertRising` `k` times. -/
def iterateInsertRising : Nat → List String → List String
  | 0, l => l
  | k + 1, l => iterateInsertRising k (insertRising l)

/-- The stage list of `_generate_scenes`: the 5-stage template, with one
extra `rising_action` inserted at index 2 for every scene beyond five
(`while len(scene_durations) > len(scene_types)`). -/
def sceneTypesFor (numScenes : Nat) : List String :=
  iterateInsertRising (numScenes - 5) ["hook", "setup", "rising_action", "climax", "resolution"]

/-- Python `str.title()` for ASCII text: uppercase the first letter of each
alphabetic run, lowercase the rest. -/
def titleAux : Bool → List Char → List Char
  | _, [] => []
  | prevAlpha, c :: rest =>
      if c.isAlpha then
        (if prevAlpha then c.toLower else c.toUpper) :: titleAux true rest
      else c :: titleAux false rest

/-- Python `str.title()`. -/
def pyTitle (s : String) : String :=
  ⟨titleAux false s.data⟩

/-- Python `f"{x:.0%}"` for the intensities of this program: every reachable
intensity is a multiple of 1/10 (or the 1/2 default), so `100 * x` is an
integer and the IEEE-754 percent rendering is that integer (checked against
doubles for all reachable literals). -/
def formatPercent (q : ℚ) : String :=
  toString (round (100 * q) : ℤ) ++ "%"

/-- One scene of the plan (the pydantic `Scene` model; the source's `end`
field is named `stop` here because `end` is reserved in Lean). -/
structure Scene where
  sceneId : Nat
  goal : String
  start : String
  stop : String
  visual : String
  audio : String
  voiceOverText : Option String
  subtitleUsage : Bool
  transition : String
deriving DecidableEq, Repr

/-- Build scene `i` (0-based) of `_generate_scenes`, spanning
`[currentTime, currentTime + duration)`. -/
def buildScene (answers : Py.AnswerMap) (progression : List Narrative.Beat)
    (hasTranscription : Bool) (numScenes : Nat) (sceneTypes : List String)
    (i : Nat) (currentTime duration : Int) : Scene :=
  let rhythm := Py.getStrD answers "editing_rhythm" "Medium"
  let tone := Py.getStrD answers "emotional_tone" "neutral"
  let ending := Py.getStrD answers "ending_style" "Closed ending"
  let sceneType := if h : i < sceneTypes.length then sceneTypes.get ⟨i, h⟩ else "development"
  -- `emotional_progression[i]` or `{'emotion': tone.lower(), 'intensity': 0.5}`
  let beatEmotion := if h : i < progression.length then (progression.get ⟨i, h⟩).emotion
                     else Py.lower tone
  let beatIntensity : ℚ := if h : i < progression.length then (progression.get ⟨i, h⟩).intensity
                           else 1/2
  let visualAudioTransition : String × String × String :=
    if sceneType = "hook" then
      ("Impactful opening shot that establishes tone and grabs attention",
       if !(Py.containsSub (Py.getStrD answers "voice_over_needed" "") "voice")
         then "music" else "voice_over",
       "cut")
    else if sceneType = "setup" then
      ("Establishing context and introducing key elements",
       if hasTranscription then "dialogue" else "ambient",
       if Py.containsSub (Py.lower rhythm) "slow" then "fade" else "cut")
    else if sceneType = "rising_action" then
      ("Building tension with " ++ beatEmotion ++ " energy",
       if beatIntensity > (6/10 : ℚ) then "music" else "dialogue",
       if i < numScenes - 1 then "match_cut" else "cut")
    else if sceneType = "climax" then
      ("Peak emotional moment: " ++ beatEmotion ++ " at maximum intensity",
       "music", "fade")
    else
      ((if Py.containsSub (Py.lower ending) "open" then
          "Thought-provoking final image that lingers"
        else if Py.containsSub (Py.lower ending) "cliffhanger" then
          "Suspenseful final moment that hints at continuation"
        else "Satisfying conclusion that resolves the narrative"),
       if Py.containsSub (Py.lower ending) "open" then "ambient" else "music",
       "fade")
  let voiceText :=
    if Py.startsWith (Py.getStrD answers "voice_over_needed" "") "Yes" then
      if sceneType = "hook" then "[Opening hook - introduce the journey]"
      else if sceneType = "setup" then "[Context setting - establish the story]"
      else if sceneType = "climax" then "[Emotional peak - " ++ beatEmotion ++ "]"
      else if sceneType = "resolution" then
        "[Closing reflection - leave the audience with the message]"
      else ""
    else ""
  { sceneId := i + 1
    goal := pyTitle (Py.replace sceneType "_" " ") ++ ": " ++ beatEmotion ++
      " (" ++ formatPercent beatIntensity ++ " intensity)"
    start := secondsToTimestamp currentTime.toNat
    stop := secondsToTimestamp (currentTime + duration).toNat
    visual := visualAudioTransition.1
    audio := visualAudioTransition.2.1
    voiceOverText := if voiceText ≠ "" then some voiceText else none
    subtitleUsage := Py.containsSub (Py.getStrD answers "subtitles_enabled" "") "Yes"
    transition := visualAudioTransition.2.2 }

/-- The scene loop of `_generate_scenes`, carrying `current_time`. -/
def buildScenes (answers : Py.AnswerMap) (progression : List Narrative.Beat)
    (hasTranscription : Bool) (numScenes : Nat) (sceneTypes : List String) :
    Nat → Int → List Int → List Scene
  | _, _, [] => []
  | i, currentTime, d :: rest =>
      buildScene answers progression hasTranscription numScenes sceneTypes i currentTime d ::
      buildScenes answers progression hasTranscription numScenes sceneTypes
        (i + 1) (currentTime + d) rest

/-- Embeds `ScenePlanning._generate_scenes` (the `total_duration` parameter of the
source is unused by its body; the `visuales` input likewise). -/
def generateScenes (answers : Py.AnswerMap) (progression : List Narrative.Beat)
    (hasTranscription : Bool) (sceneDurations : List Int) : List Scene :=
  buildScenes answers progression hasTranscription sceneDurations.length
    (sceneTypesFor sceneDurations.length) 0 0 sceneDurations

/-- The dict returned by `ScenePlanning.generate_plan`
(`ScenePlanningOutput`). -/
structure PlanOutput where
  title : String
  theme : String
  style : String
  format : String
  voiceOver : VoiceOver
  subtitles : Subtitles
  scenes : List Scene
deriving DecidableEq, Repr

/-- Embeds `ScenePlanning.generate_plan` (the transcription input enters only
through its truthiness, the visual analysis not at all; `solicitud` is the
final prompt and `narrative` the stored phase-3 analysis, with the source's
`.get` defaults when absent). -/
def generatePlan (solicitud : String) (answers : Py.AnswerMap)
    (hasTranscription : Bool) (narrative : Option Narrative.AnalysisResult) : PlanOutput :=
  let platform := Py.getStrD answers "target_platform" "YouTube"
  let durationAnswer := Py.getStrD answers "target_duration" "1-3 minutes"
  let rhythm := Py.getStrD answers "editing_rhythm" "Medium"
  let tone := Py.getStrD answers "emotional_tone" "neutral"
  let totalDuration := parseDuration durationAnswer
  let arc := (narrative.map (fun n => n.narrativeArc)).getD "documentary"
  let progression := (narrative.map (fun n => n.emotionalProgression)).getD []
  let cpm := cutsPerMinute rhythm
  let n := numScenes totalDuration cpm
  let sceneDurations := calculateSceneDurations totalDuration n rhythm
  { title := generateTitle solicitud tone
    theme := generateTheme arc
    style := generateStyle answers
    format := determineFormat platform
    voiceOver := generateVoiceOverConfig answers
    subtitles := generateSubtitleConfig answers
    scenes := generateScenes answers progression hasTranscription sceneDurations }

/-- The timestamp check of the pydantic `Scene` validator: split on `:` into
two or three parts. -/
def timestampWellFormed (ts : String) : Bool :=
  (Py.splitOnChar ':' ts).length = 2 || (Py.splitOnChar ':' ts).length = 3

/-- Embeds `validate_json_schema(plan, ScenePlanningOutput)`: the pydantic checks
the generated plans are subject to — well-formed timestamps, sequential
scene ids from 1, at least one scene, a legal format label, voices present
when voice-over is enabled, a subtitle type when subtitles are enabled.
Validation failure raises, which the phase handler surfaces as an error. -/
def validatePlan (p : PlanOutput) : Bool :=
  p.scenes.all (fun s => timestampWellFormed s.start && timestampWellFormed s.stop) &&
  !p.scenes.isEmpty &&
  decide (p.scenes.map (fun s => s.sceneId) = List.range' 1 p.scenes.length) &&
  (p.format = "16:9" || p.format = "9:16" || p.format = "1:1") &&
  (!p.voiceOver.enabled || !p.voiceOver.voices.isEmpty) &&
  (!p.subtitles.enabled || p.subtitles.type.isSome)

end ScenePlanning

namespace App

/-- The `session['data']` store: the keys the phase handlers read and write
(`get` of an absent key is the falsy default). -/
structure SessionData where
  phase1 : Option PromptRefiner.RefineResult := none
  improvedPrompt : Option String := none
  promptApproved : Bool := false
  finalPrompt : Option String := none
  phase2Questions : List Questioning.Question := []
  phase2Answers : Py.AnswerMap := []
  phase3Narrative : Option Narrative.AnalysisResult := none
  phase4ScenePlan : Option ScenePlanning.PlanOutput := none
deriving DecidableEq

/-- One entry of the in-process `sessions` map (`get_session`): the current
phase, the transcription's truthiness, the visual-analysis scenes, and the
phase-data store.  Webhook notifications carry no session state and are
fire-and-forget, so they do not appear in the state. -/
structure Session where
  phase : Option String := none
  hasTranscription : Bool := false
  visualScenes : List Narrative.VScene := []
  data : SessionData := {}
deriving DecidableEq

/-- A fresh session as `get_session` creates it. -/
def freshSession : Session := {}

/-- A phase handler's outcome: a 200 payload or a 400/500 error body.
Precondition errors carry the handler's literal message; an error standing
for the `except` path ("Phase N error", validation failure) summarizes the
`str(e)` payload the handler would return. -/
inductive PhaseResult where
  | success
  | error (message : String)
deriving DecidableEq, Repr

/-- Embeds `app.phase2_generate_questions` after the session lookup: the handler
sets `session['phase']` *before* checking the `prompt_approved`
prerequisite, then either rejects or generates and stores the questions.
A `None` final prompt would raise inside `generate_questions` and surface
as a 500 without storing anything. -/
def phase2GenerateQuestions (s : Session) : Session × PhaseResult :=
  let s1 := { s with phase := some "phase2_intelligent_questioning" }
  if !s1.data.promptApproved then
    (s1, .error "Prompt not yet approved. Complete Phase 1 first.")
  else
    match s1.data.finalPrompt with
    | none => (s1, .error "Phase 2 error")
    | some finalPrompt =>
        let qs := Questioning.generateQuestions finalPrompt s1.data.phase2Answers
        ({ s1 with data := { s1.data with phase2Questions := qs } }, .success)

/-- Embeds `app.phase3_narrative_analysis` after the session lookup: the handler
sets `session['phase']` *before* checking that any answer is recorded, then
either rejects or runs and stores the narrative analysis.  A `None` final
prompt raises inside `analyze` and surfaces as a 500 without storing. -/
def phase3NarrativeAnalysis (s : Session) : Session × PhaseResult :=
  let s1 := { s with phase := some "phase3_narrative_reasoning" }
  if s1.data.phase2Answers.isEmpty then
    (s1, .error "Phase 2 not completed. Answer questions first.")
  else
    match s1.data.finalPrompt with
    | none => (s1, .error "Phase 3 error")
    | some finalPrompt =>
        let result := Narrative.analyze finalPrompt s1.data.phase2Answers s1.visualScenes
        ({ s1 with data := { s1.data with phase3Narrative := some result } }, .success)

/-- Embeds `app.phase4_scene_planning` after the session lookup: the handler sets
`session['phase']` *before* checking that a narrative analysis is stored,
then either rejects or generates, validates and stores the scene plan
(validation failure surfaces as an error without storing).  With a stored
narrative the final prompt is always present, since phase 3 needed it;
a `None` prompt would raise inside `generate_plan` as a 500. -/
def phase4ScenePlanning (s : Session) : Session × PhaseResult :=
  let s1 := { s with phase := some "phase4_scene_planning" }
  match s1.data.phase3Narrative with
  | none => (s1, .error "Phase 3 not completed. Run narrative analysis first.")
  | some narrative =>
      match s1.data.finalPrompt with
      | none => (s1, .error "Phase 4 error")
      | some finalPrompt =>
          let plan := ScenePlanning.generatePlan finalPrompt s1.data.phase2Answers
            s1.hasTranscription (some narrative)
          if ScenePlanning.validatePlan plan then
            ({ s1 with data := { s1.data with phase4ScenePlan := some plan } }, .success)
          else
            (s1, .error "Validation failed for ScenePlanningOutput")

end App

namespace Claims

/-- The duration buckets offered by the `duration` catalog question. -/
def durationOptions : List String :=
  ["15-30 seconds (Short social media)", "30-60 seconds (Standard social)",
   "1-3 minutes (YouTube short/Medium)", "3-10 minutes (Long YouTube)",
   "10-30 minutes (Extended content)", "Feature length (30+ minutes)"]

/-- The editing rhythms offered by the `rhythm` catalog question. -/
def rhythmOptions : List String :=
  ["Slow (contemplative, long takes, artistic)", "Medium (balanced, standard pacing)",
   "Fast (dynamic, quick cuts, energetic)", "Variable (mix of paces for emotional effect)"]

/-- The answer set recording one choice for each of the duration, rhythm,
platform and ending questions. -/
def answersFor (d r p e : String) : Py.AnswerMap :=
  [("target_duration", .str d), ("editing_rhythm", .str r),
   ("target_platform", .str p), ("ending_style", .str e)]

/-- The spec's reading of a scene's timing: both timestamps parse and the
end is at least the start. -/
def endAtLeastStart (start stop : String) : Bool :=
  match ScenePlanning.parseTimestamp start, ScenePlanning.parseTimestamp stop with
  | some a, some b => a ≤ b
  | _, _ => false

/-- The span `end seconds - start seconds` of a scene (0 for an unparsable
timestamp; every generated timestamp parses). -/
def sceneSpan (start stop : String) : Int :=
  ((ScenePlanning.parseTimestamp stop).getD 0 : Int) -
    ((ScenePlanning.parseTimestamp start).getD 0 : Int)

/-- The rhythm-scaled per-scene base duration of
`_calculate_scene_durations`: `total // n` scaled by 1.2 / 0.8 / 1. -/
def scaledBase (d r : String) : Int :=
  let total := ScenePlanning.parseDuration d
  let n := ScenePlanning.numScenes total (ScenePlanning.cutsPerMinute r)
  let base : Int := (total / n : Nat)
  if Py.containsSub (Py.lower r) "slow" then 6 * base / 5
  else if Py.containsSub (Py.lower r) "fast" then 4 * base / 5
  else base

end Claims

namespace Py

theorem mem_stableInsert {α : Type} (lt : α → α → Bool) (x : α) :
    ∀ (l : List α) (y : α), y ∈ stableInsert lt x l → y = x ∨ y ∈ l := by
  intro l
  induction l with
  | nil => intro y hy; simp [stableInsert] at hy; exact Or.inl hy
  | cons z zs ih =>
      intro y hy
      by_cases h : lt x z = true
      · simp [stableInsert, h] at hy
        rcases hy with h1 | h1 | h1
        · exact Or.inl h1
        · exact Or.inr (by simp [h1])
        · exact Or.inr (by simp [h1])
      · simp [stableInsert, h] at hy
        rcases hy with h1 | h1
        · exact Or.inr (by simp [h1])
        · rcases ih y h1 with h2 | h2
          · exact Or.inl h2
          · exact Or.inr (by simp [h2])

theorem pairwise_stableInsert {α : Type} (lt : α → α → Bool) (R : α → α → Prop)
    (hlt : ∀ a b, lt a b = true → R a b)
    (hnlt : ∀ a b, lt a b = false → R b a)
    (htrans : ∀ a b c, R a b → R b c → R a c) :
    ∀ (l : List α) (x : α), l.Pairwise R → (stableInsert lt x l).Pairwise R := by
  intro l
  induction l with
  | nil => intro x _; simp [stableInsert]
  | cons y ys ih =>
      intro x hp
      rcases List.pairwise_cons.mp hp with ⟨hy, hys⟩
      by_cases h : lt x y = true
      · have hxy : R x y := hlt _ _ h
        simp only [stableInsert, h, if_true]
        refine List.pairwise_cons.mpr ⟨?_, hp⟩
        intro z hz
        rcases List.mem_cons.mp hz with rfl | hz'
        · exact hxy
        · exact htrans _ _ _ hxy (hy z hz')
      · have h' : lt x y = false := by simpa using h
        simp only [stableInsert, h', Bool.false_eq_true, if_false]
        refine List.pairwise_cons.mpr ⟨?_, ih x hys⟩
        intro z hz
        rcases mem_stableInsert lt x ys z hz with rfl | hz'
        · exact hnlt _ _ h'
        · exact hy z hz'

theorem pairwise_stableSort {α : Type} (lt : α → α → Bool) (R : α → α → Prop)
    (hlt : ∀ a b, lt a b = true → R a b)
    (hnlt : ∀ a b, lt a b = false → R b a)
    (htrans : ∀ a b c, R a b → R b c → R a c)
    (l : List α) : (stableSort lt l).Pairwise R := by
  suffices h : ∀ (acc : List α), acc.Pairwise R →
      (l.foldl (fun acc x => stableInsert lt x acc) acc).Pairwise R by
    exact h [] (by simp)
  induction l with
  | nil => intro acc hacc; simpa using hacc
  | cons x xs ih =>
      intro acc hacc
      exact ih _ (pairwise_stableInsert lt R hlt hnlt htrans acc x hacc)

theorem mem_stableSort {α : Type} (lt : α → α → Bool) (l : List α) (y : α) :
    y ∈ stableSort lt l → y ∈ l := by
  suffices h : ∀ (acc : List α), y ∈ l.foldl (fun acc x => stableInsert lt x acc) acc →
      y ∈ acc ∨ y ∈ l by
    intro hy
    rcases h [] hy with h1 | h1
    · simp at h1
    · exact h1
  induction l with
  | nil => intro acc hy; exact Or.inl (by simpa using hy)
  | cons x xs ih =>
      intro acc hy
      rcases ih (stableInsert lt x acc) (by simpa using hy) with h1 | h1
      · rcases mem_stableInsert lt x acc y h1 with rfl | h2
        · exact Or.inr (by simp)
        · exact Or.inl h2
      · exact Or.inr (by simp [h1])

end Py

namespace Claims

theorem answersFor_duration (d r p e dflt : String) :
    Py.getStrD (answersFor d r p e) "target_duration" dflt = d := rfl

theorem answersFor_rhythm (d r p e dflt : String) :
    Py.getStrD (answersFor d r p e) "editing_rhythm" dflt = r := rfl

theorem buildScenes_startStop (a : Py.AnswerMap) (pr : List Narrative.Beat)
    (ht : Bool) (n : Nat) (st : List String) :
    ∀ (ds : List Int) (i : Nat) (t : Int),
      (ScenePlanning.buildScenes a pr ht n st i t ds).map (fun s => (s.start, s.stop)) =
        (ScenePlanning.sceneBounds t ds).map
          (fun p => (ScenePlanning.secondsToTimestamp p.1.toNat,
                     ScenePlanning.secondsToTimestamp p.2.toNat)) := by
  intro ds
  induction ds with
  | nil => intro i t; rfl
  | cons d rest ih =>
      intro i t
      simp [ScenePlanning.buildScenes, ScenePlanning.sceneBounds,
        ScenePlanning.buildScene, ih]

/-- The scenes of a generated plan carry exactly the timing skeleton's
timestamps: they depend only on the duration and rhythm answers. -/
theorem generatePlan_startStop (sol : String) (ans : Py.AnswerMap) (ht : Bool)
    (narr : Option Narrative.AnalysisResult) :
    (ScenePlanning.generatePlan sol ans ht narr).scenes.map (fun s => (s.start, s.stop)) =
      ScenePlanning.generatePlanTimes (Py.getStrD ans "target_duration" "1-3 minutes")
        (Py.getStrD ans "editing_rhythm" "Medium") := by
  simp [ScenePlanning.generatePlan, ScenePlanning.generateScenes,
    ScenePlanning.generatePlanTimes, ScenePlanning.sceneTimestamps,
    buildScenes_startStop]

theorem firstMaxByValue_mem :
    ∀ (l : List (String × Nat)) (p : String × Nat), Py.firstMaxByValue l = some p → p ∈ l := by
  have step : ∀ (rest : List (String × Nat)) (acc : String × Nat),
      rest.foldl (fun best x => if x.2 > best.2 then x else best) acc = acc ∨
      rest.foldl (fun best x => if x.2 > best.2 then x else best) acc ∈ rest := by
    intro rest
    induction rest with
    | nil => intro acc; exact Or.inl rfl
    | cons x xs ih =>
        intro acc
        rcases ih (if x.2 > acc.2 then x else acc) with h | h
        · rw [List.foldl_cons, h]
          by_cases hx : x.2 > acc.2
          · simp [hx]
          · simp [hx]
        · exact Or.inr (List.mem_cons_of_mem _ h)
  intro l p hp
  match l with
  | [] => simp [Py.firstMaxByValue] at hp
  | q :: rest =>
      simp only [Py.firstMaxByValue, Option.some.injEq] at hp
      rcases step rest q with h | h
      · rw [← hp, h]; exact List.mem_cons_self _ _
      · rw [← hp]; exact List.mem_cons_of_mem _ h

theorem firstMaxByValue_le :
    ∀ (l : List (String × Nat)) (p : String × Nat), Py.firstMaxByValue l = some p →
      ∀ y ∈ l, y.2 ≤ p.2 := by
  have step : ∀ (rest : List (String × Nat)) (acc : String × Nat),
      acc.2 ≤ (rest.foldl (fun best x => if x.2 > best.2 then x else best) acc).2 ∧
      ∀ y ∈ rest, y.2 ≤ (rest.foldl (fun best x => if x.2 > best.2 then x else best) acc).2 := by
    intro rest
    induction rest with
    | nil => intro acc; simp
    | cons x xs ih =>
        intro acc
        rcases ih (if x.2 > acc.2 then x else acc) with ⟨h1, h2⟩
        constructor
        · refine le_trans ?_ h1
          by_cases hx : x.2 > acc.2
          · simp [hx]; omega
          · simp [hx]
        · intro y hy
          rcases List.mem_cons.mp hy with rfl | hy'
          · refine le_trans ?_ h1
            by_cases hx : y.2 > acc.2
            · simp [hx]
            · simp [hx]; omega
          · exact h2 y hy'
  intro l p hp y hy
  match l with
  | [] => simp at hy
  | q :: rest =>
      simp only [Py.firstMaxByValue, Option.some.injEq] at hp
      rcases List.mem_cons.mp hy with rfl | hy'
      · rw [← hp]; exact (step rest y).1
      · rw [← hp]; exact (step rest q).2 y hy'

end Claims


namespace Claims

/-- C3 (counterexample): on the empty input, `refine` returns
`user_action_required = "revise"` although only one issue (the empty-prompt
issue) was detected, so "revise iff more than two issues" fails as a
statement about every input string. -/
theorem refine_empty_revise_one_issue :
    (PromptRefiner.refine "").userActionRequired = "revise" ∧
      ¬((PromptRefiner.refine "").issuesDetected.length > 2) := by
  constructor
  · rfl
  · decide

/-- C3 (amended): for every input whose stripped text is non-empty,
`refine` returns `user_action_required = "revise"` iff more than two issues
were detected; the empty / whitespace-only input is the single exception and
always yields `revise` (with exactly one issue). -/
theorem refine_revise_iff_issues (s : String) (h : Py.strip s ≠ "") :
    (PromptRefiner.refine s).userActionRequired = "revise" ↔
      (PromptRefiner.refine s).issuesDetected.length > 2 := by
  simp only [PromptRefiner.refine, if_neg h]
  by_cases hl : (PromptRefiner.analyzeIssues s).length > 2
  · simp [hl]
  · simp [hl]

/-- C3 (witness): the amended rule applied to a concrete prompt. -/
theorem refine_revise_iff_issues_witness :
    (PromptRefiner.refine "Make a nice video about my vacation").userActionRequired = "revise" ↔
      (PromptRefiner.refine "Make a nice video about my vacation").issuesDetected.length > 2 :=
  refine_revise_iff_issues "Make a nice video about my vacation" (by decide)

/-- C4: on the empty and the whitespace-only input, `refine` returns an
empty `improved_prompt`, violating the non-emptiness invariant that the
repository's own `PromptRefinementOutput.improved_not_empty` validator
(enforced on this output by `validate_json_schema` in the phase-1 handler)
demands. -/
theorem refine_empty_improved_empty :
    (PromptRefiner.refine "").improvedPrompt = "" ∧
      (PromptRefiner.refine "   ").improvedPrompt = "" :=
  ⟨rfl, rfl⟩

/-- C5: `check_completeness` returns true iff there are no required
questions, or the count of required questions whose id is answered is at
least 0.8 times the required count (the Python float comparison agrees with
the exact rational one at every list length, see `checkCompleteness`). -/
theorem checkCompleteness_spec (qs : List Questioning.Question) (ans : Py.AnswerMap) :
    Questioning.checkCompleteness qs ans = true ↔
      (qs.filter (fun q => q.required) = [] ∨
        (((qs.filter (fun q => q.required)).countP (fun q => Py.hasKey ans q.id) : ℚ) ≥
          ((qs.filter (fun q => q.required)).length : ℚ) * (4 / 5))) := by
  unfold Questioning.checkCompleteness
  by_cases he : (qs.filter (fun q => q.required)).isEmpty
  · simp [he, List.isEmpty_iff.mp he]
  · simp only [he, Bool.false_eq_true, if_false, decide_eq_true_eq]
    have hne : ¬(qs.filter (fun q => q.required) = []) := by
      simpa [List.isEmpty_iff] using he
    simp only [hne, false_or]
    constructor
    · intro h
      have h' : (4 : ℚ) * ((qs.filter (fun q => q.required)).length : ℚ) ≤
          5 * ((qs.filter (fun q => q.required)).countP (fun q => Py.hasKey ans q.id) : ℚ) := by
        exact_mod_cast h
      linarith
    · intro h
      have h' : (4 : ℚ) * ((qs.filter (fun q => q.required)).length : ℚ) ≤
          5 * ((qs.filter (fun q => q.required)).countP (fun q => Py.hasKey ans q.id) : ℚ) := by
        linarith
      exact_mod_cast h'

/-- C7 (counterexample): on the catalog's first duration bucket the two
duration lookups disagree: scene synthesis resolves 25 seconds where the
narrative pacing table resolves 30. -/
theorem durationLookupsDisagree :
    ScenePlanning.parseDuration "15-30 seconds (Short social media)" = 25 ∧
      Narrative.pacingDurationSeconds "15-30 seconds (Short social media)" = 30 ∧
      (25 : Nat) ≠ 30 := by
  refine ⟨rfl, rfl, by decide⟩

/-- C7 (amended): the two lookups take the same branch on every string, but
agree only on the default branch: the value pairs are (25, 30), (45, 60),
(120, 180), (360, 600), (1200, 1800) on the five buckets and (180, 180)
otherwise, so they are equal exactly when none of the five bucket patterns
occurs in the answer. -/
theorem durationLookupPairs (d : String) :
    ((ScenePlanning.parseDuration d, Narrative.pacingDurationSeconds d) ∈
      [(25, 30), (45, 60), (120, 180), (360, 600), (1200, 1800), (180, 180)]) ∧
    (ScenePlanning.parseDuration d = Narrative.pacingDurationSeconds d ↔
      (Py.containsSub d "15-30" = false ∧ Py.containsSub d "30-60" = false ∧
       Py.containsSub d "1-3" = false ∧ Py.containsSub d "3-10" = false ∧
       Py.containsSub d "10-30" = false)) := by
  unfold ScenePlanning.parseDuration Narrative.pacingDurationSeconds
  by_cases h1 : Py.containsSub d "15-30" <;>
    by_cases h2 : Py.containsSub d "30-60" <;>
      by_cases h3 : Py.containsSub d "1-3" <;>
        by_cases h4 : Py.containsSub d "3-10" <;>
          by_cases h5 : Py.containsSub d "10-30" <;>
            simp [h1, h2, h3, h4, h5]

end Claims

namespace Claims

theorem mem_ite_singleton {c x : String} {b : Prop} [Decidable b]
    (h : c ∈ (if b then [x] else ([] : List String))) : c = x := by
  split at h
  · simpa using h
  · simp at h

/-- Every category emitted by `detect_missing_info` is one of the ten fixed
category names. -/
theorem detectMissing_cats (p : String) (a : Py.AnswerMap) :
    ∀ c ∈ Questioning.detectMissingInfo p a,
      c ∈ ["format", "platform", "duration", "rhythm", "tone", "music", "voice_over",
           "subtitles", "ending", "source_material"] := by
  intro c hc
  unfold Questioning.detectMissingInfo at hc
  simp only [List.mem_append, or_assoc] at hc
  rcases hc with h|h|h|h|h|h|h|h|h|h <;>
    (rw [mem_ite_singleton h]; decide)

/-- An instantiated question inherits its id from its template. -/
theorem instantiate_id (a : Py.AnswerMap) (c : String) (q : Questioning.Question)
    (h : Questioning.instantiateCategory a c = some q) :
    ∃ t, Questioning.questionTemplates c = some t ∧ q.id = t.id := by
  unfold Questioning.instantiateCategory at h
  cases ht : Questioning.questionTemplates c with
  | none => rw [ht] at h; simp at h
  | some t =>
      rw [ht] at h
      refine ⟨t, rfl, ?_⟩
      simp only [] at h
      split at h
      · cases h; rfl
      · simp at h

/-- C9: question generation is a pure function of `(prompt, answers)` (two
calls with the same inputs return the same list in the same order), and in
every returned list each required question precedes every non-required one
(the stable sort key is `(not required, id)`). -/
theorem generateQuestions_deterministic_requiredFirst (p : String) (a : Py.AnswerMap) :
    Questioning.generateQuestions p a = Questioning.generateQuestions p a ∧
    (Questioning.generateQuestions p a).Pairwise
      (fun q1 q2 => q2.required = true → q1.required = true) := by
  refine ⟨rfl, ?_⟩
  unfold Questioning.generateQuestions
  apply Py.pairwise_stableSort
  · intro x y hxy hy
    simp only [Questioning.questionSortLt, Bool.or_eq_true, Bool.and_eq_true] at hxy
    rcases hxy with ⟨h1, h2⟩ | ⟨h1, _⟩
    · exact h1
    · rw [← hy]; exact beq_iff_eq.mp h1
  · intro x y hxy hx
    by_contra hy
    have hy' : y.required = false := by
      cases h : y.required
      · rfl
      · exact absurd h hy
    simp [Questioning.questionSortLt, hx, hy'] at hxy
  · intro x y z h1 h2 h3
    exact h1 (h2 h3)

/-- C10: the deterministic generator only ever emits the ten unconditional
catalog questions; the dependent voice/subtitle-style templates and the
color-grade template are unreachable. -/
theorem generateQuestions_ids (p : String) (a : Py.AnswerMap) (q : Questioning.Question)
    (hq : q ∈ Questioning.generateQuestions p a) :
    q.id ∈ ["video_format", "target_platform", "target_duration", "editing_rhythm",
      "emotional_tone", "music_style", "voice_over_needed", "subtitles_enabled",
      "ending_style", "source_material"] ∧
    q.id ∉ ["voice_language", "voice_gender", "voice_age", "subtitle_style", "color_grade"] := by
  have hq' := Py.mem_stableSort _ _ _ hq
  rcases List.mem_filterMap.mp hq' with ⟨c, hc, hinst⟩
  have hcats := detectMissing_cats p a c hc
  rcases instantiate_id a c q hinst with ⟨t, ht, hqid⟩
  simp only [List.mem_cons] at hcats
  rcases hcats with rfl|rfl|rfl|rfl|rfl|rfl|rfl|rfl|rfl|rfl|hnil
  · have h2 : Option.map Questioning.QTemplate.id
        (Questioning.questionTemplates "format") = some "video_format" := rfl
    rw [ht, Option.map_some'] at h2
    rw [hqid, Option.some.inj h2]
    exact ⟨by decide, by decide⟩
  · have h2 : Option.map Questioning.QTemplate.id
        (Questioning.questionTemplates "platform") = some "target_platform" := rfl
    rw [ht, Option.map_some'] at h2
    rw [hqid, Option.some.inj h2]
    exact ⟨by decide, by decide⟩
  · have h2 : Option.map Questioning.QTemplate.id
        (Questioning.questionTemplates "duration") = some "target_duration" := rfl
    rw [ht, Option.map_some'] at h2
    rw [hqid, Option.some.inj h2]
    exact ⟨by decide, by decide⟩
  · have h2 : Option.map Questioning.QTemplate.id
        (Questioning.questionTemplates "rhythm") = some "editing_rhythm" := rfl
    rw [ht, Option.map_some'] at h2
    rw [hqid, Option.some.inj h2]
    exact ⟨by decide, by decide⟩
  · have h2 : Option.map Questioning.QTemplate.id
        (Questioning.questionTemplates "tone") = some "emotional_tone" := rfl
    rw [ht, Option.map_some'] at h2
    rw [hqid, Option.some.inj h2]
    exact ⟨by decide, by decide⟩
  · have h2 : Option.map Questioning.QTemplate.id
        (Questioning.questionTemplates "music") = some "music_style" := rfl
    rw [ht, Option.map_some'] at h2
    rw [hqid, Option.some.inj h2]
    exact ⟨by decide, by decide⟩
  · have h2 : Option.map Questioning.QTemplate.id
        (Questioning.questionTemplates "voice_over") = some "voice_over_needed" := rfl
    rw [ht, Option.map_some'] at h2
    rw [hqid, Option.some.inj h2]
    exact ⟨by decide, by decide⟩
  · have h2 : Option.map Questioning.QTemplate.id
        (Questioning.questionTemplates "subtitles") = some "subtitles_enabled" := rfl
    rw [ht, Option.map_some'] at h2
    rw [hqid, Option.some.inj h2]
    exact ⟨by decide, by decide⟩
  · have h2 : Option.map Questioning.QTemplate.id
        (Questioning.questionTemplates "ending") = some "ending_style" := rfl
    rw [ht, Option.map_some'] at h2
    rw [hqid, Option.some.inj h2]
    exact ⟨by decide, by decide⟩
  · have h2 : Option.map Questioning.QTemplate.id
        (Questioning.questionTemplates "source_material") = some "source_material" := rfl
    rw [ht, Option.map_some'] at h2
    rw [hqid, Option.some.inj h2]
    exact ⟨by decide, by decide⟩
  · exact absurd hnil (List.not_mem_nil c)

/-- C10 (witness): with every category but `source_material` answered, the
single generated question is the source-material question and its id is one
of the ten reachable ids. -/
theorem generateQuestions_ids_witness :
    ({ id := "source_material", category := "technical",
       question := "What is your source footage like?", qtype := "multiple_choice",
       options := some ["Single continuous take", "Multiple camera angles",
         "Interview footage", "B-roll / supplementary footage", "Screen recordings",
         "Mobile phone footage", "Professional camera footage", "Mixed sources"],
       required := true,
       helpText := some "Helps determine editing approach and technical requirements" }
      : Questioning.Question).id ∈
      ["video_format", "target_platform", "target_duration", "editing_rhythm",
        "emotional_tone", "music_style", "voice_over_needed", "subtitles_enabled",
        "ending_style", "source_material"] ∧
    ({ id := "source_material", category := "technical",
       question := "What is your source footage like?", qtype := "multiple_choice",
       options := some ["Single continuous take", "Multiple camera angles",
         "Interview footage", "B-roll / supplementary footage", "Screen recordings",
         "Mobile phone footage", "Professional camera footage", "Mixed sources"],
       required := true,
       helpText := some "Helps determine editing approach and technical requirements" }
      : Questioning.Question).id ∉
      ["voice_language", "voice_gender", "voice_age", "subtitle_style", "color_grade"] :=
  generateQuestions_ids ""
    [("video_format", .str "16:9 (Landscape - YouTube, Film, TV)"),
     ("target_platform", .str "YouTube (long-form, 16:9)"),
     ("target_duration", .str "1-3 minutes (YouTube short/Medium)"),
     ("editing_rhythm", .str "Medium (balanced, standard pacing)"),
     ("emotional_tone", .str "Joyful / Uplifting"),
     ("music_style", .str "Cinematic orchestral"),
     ("voice_over_needed", .str "No voice-over needed"),
     ("subtitles_enabled", .str "No subtitles needed"),
     ("ending_style", .str "Closed ending (clear resolution)")]
    _ (by decide)

end Claims

namespace Claims

/-- C6 (counterexample): with an empty prompt and the tone answer
"sad romantic", `love_story` and `tragedy` tie at the maximal score 2, yet
the selection returns `love_story` (the earlier of the two in catalog
order) instead of the content-based default `documentary`. -/
theorem archetypeTieNotDefault :
    Narrative.identifyNarrativeArc "" [("emotional_tone", Py.AnswerVal.str "sad romantic")] =
      "love_story" ∧
    ("love_story", 2) ∈ Narrative.arcScores "" [("emotional_tone", Py.AnswerVal.str "sad romantic")] ∧
    ("tragedy", 2) ∈ Narrative.arcScores "" [("emotional_tone", Py.AnswerVal.str "sad romantic")] ∧
    (∀ y ∈ Narrative.arcScores "" [("emotional_tone", Py.AnswerVal.str "sad romantic")], y.2 ≤ 2) ∧
    Narrative.contentDefault (Py.lower "") = "documentary" ∧
    "love_story" ≠ "documentary" := by
  refine ⟨rfl, by decide, by decide, by decide, rfl, by decide⟩

/-- C6 (amended): when every archetype score is zero the selection falls
back to the content-based default (interview keyword → `interview`;
wedding/event/vacation/trip → `montage`; else `documentary`); but a tie for
a positive maximum does not: the result is then the first archetype in
catalog order attaining the maximum (Python's `max` over the score dict). -/
theorem archetypeSelection (prompt : String) (answers : Py.AnswerMap) :
    ((∀ x ∈ Narrative.arcScores prompt answers, x.2 = 0) →
      Narrative.identifyNarrativeArc prompt answers =
        Narrative.contentDefault (Py.lower prompt)) ∧
    (∀ arc n, Py.firstMaxByValue (Narrative.arcScores prompt answers) = some (arc, n) →
      0 < n →
      Narrative.identifyNarrativeArc prompt answers = arc ∧
      (arc, n) ∈ Narrative.arcScores prompt answers ∧
      ∀ y ∈ Narrative.arcScores prompt answers, y.2 ≤ n) := by
  constructor
  · intro hz
    cases hm : Py.firstMaxByValue (Narrative.arcScores prompt answers) with
    | none => simp [Narrative.identifyNarrativeArc, hm]
    | some p =>
        obtain ⟨arc0, n0⟩ := p
        have hmem := firstMaxByValue_mem _ _ hm
        have hz0 : n0 = 0 := hz _ hmem
        subst hz0
        simp [Narrative.identifyNarrativeArc, hm]
  · intro arc n hm hn
    refine ⟨?_, firstMaxByValue_mem _ _ hm, firstMaxByValue_le _ _ hm⟩
    simp [Narrative.identifyNarrativeArc, hm, hn]

/-- C6 (witness): the all-zero fallback applied at the empty prompt with no
answers resolves to the documented default. -/
theorem archetypeSelection_witness :
    Narrative.identifyNarrativeArc "" [] = Narrative.contentDefault (Py.lower "") :=
  (archetypeSelection "" []).1 (by decide)

end Claims

namespace Claims

theorem map_dropLast' {α β : Type} (f : α → β) :
    ∀ (l : List α), l.dropLast.map f = (l.map f).dropLast := by
  intro l
  induction l with
  | nil => rfl
  | cons x rest ih =>
      cases rest with
      | nil => rfl
      | cons y ys => simp [List.dropLast_cons₂, ih]

/-- Any per-scene property of the rendered timestamps transfers from the
timing skeleton to the scenes of the generated plan. -/
theorem planScenes_all (P : String → String → Prop) (d r sol p e : String) (ht : Bool)
    (narr : Option Narrative.AnalysisResult)
    (h : ∀ pr ∈ ScenePlanning.generatePlanTimes d r, P pr.1 pr.2) :
    ∀ s ∈ (ScenePlanning.generatePlan sol (answersFor d r p e) ht narr).scenes,
      P s.start s.stop := by
  intro s hs
  have hmem := List.mem_map_of_mem (fun s : ScenePlanning.Scene => (s.start, s.stop)) hs
  rw [generatePlan_startStop, answersFor_duration, answersFor_rhythm] at hmem
  exact h _ hmem

theorem planScenes_dropLast (P : String → String → Prop) (d r sol p e : String) (ht : Bool)
    (narr : Option Narrative.AnalysisResult)
    (h : ∀ pr ∈ (ScenePlanning.generatePlanTimes d r).dropLast, P pr.1 pr.2) :
    ∀ s ∈ (ScenePlanning.generatePlan sol (answersFor d r p e) ht narr).scenes.dropLast,
      P s.start s.stop := by
  intro s hs
  have hmem := List.mem_map_of_mem (fun s : ScenePlanning.Scene => (s.start, s.stop)) hs
  rw [map_dropLast', generatePlan_startStop, answersFor_duration, answersFor_rhythm] at hmem
  exact h _ hmem

theorem planScenes_exists (P : String → String → Prop) (d r sol p e : String) (ht : Bool)
    (narr : Option Narrative.AnalysisResult)
    (h : ∃ pr ∈ ScenePlanning.generatePlanTimes d r, P pr.1 pr.2) :
    ∃ s ∈ (ScenePlanning.generatePlan sol (answersFor d r p e) ht narr).scenes,
      P s.start s.stop := by
  rcases h with ⟨pr, hpr, hP⟩
  have hmap := generatePlan_startStop sol (answersFor d r p e) ht narr
  rw [answersFor_duration, answersFor_rhythm] at hmap
  rw [← hmap] at hpr
  rcases List.mem_map.mp hpr with ⟨s, hs, heq⟩
  exact ⟨s, hs, by rw [show pr = (s.start, s.stop) from heq.symm] at hP; exact hP⟩

theorem planScenes_map {γ : Type} (g : String → String → γ) (d r sol p e : String) (ht : Bool)
    (narr : Option Narrative.AnalysisResult) :
    ((ScenePlanning.generatePlan sol (answersFor d r p e) ht narr).scenes.map
        (fun s => g s.start s.stop)) =
      (ScenePlanning.generatePlanTimes d r).map (fun pr => g pr.1 pr.2) := by
  have hmap := generatePlan_startStop sol (answersFor d r p e) ht narr
  rw [answersFor_duration, answersFor_rhythm] at hmap
  rw [← hmap, List.map_map]
  rfl

/-- C1 (counterexample): with the "3-10 minutes" bucket and the slow rhythm,
the generated plan's final scene runs from 06:18 to 06:00 — its end parses
to 360 seconds, strictly before its 378-second start. -/
theorem scenePlanEndBeforeStart :
    ∃ s ∈ (ScenePlanning.generatePlan "Make a nice video about my vacation"
        (answersFor "3-10 minutes (Long YouTube)" "Slow (contemplative, long takes, artistic)"
          "YouTube (long-form, 16:9)" "Closed ending (clear resolution)")
        false
        (some (Narrative.analyze "Make a nice video about my vacation"
          (answersFor "3-10 minutes (Long YouTube)" "Slow (contemplative, long takes, artistic)"
            "YouTube (long-form, 16:9)" "Closed ending (clear resolution)") []))).scenes,
      ScenePlanning.parseTimestamp s.start = some 378 ∧
      ScenePlanning.parseTimestamp s.stop = some 360 ∧ (360 : Nat) < 378 := by
  decide

/-- C1 (amended): over every combination of catalog answers (duration
bucket, editing rhythm, platform, ending style — the latter two never enter
the timing), every scene except possibly the final one has `end ≥ start`;
all scenes satisfy it unless the rhythm is slow and the duration bucket
resolves to 360 or 1200 seconds, in which case the final scene's end
precedes its start. -/
theorem scenePlanTiming (d : String) (hd : d ∈ durationOptions)
    (r : String) (hr : r ∈ rhythmOptions) (solicitud p e : String) (ht : Bool)
    (narr : Option Narrative.AnalysisResult) :
    (∀ s ∈ (ScenePlanning.generatePlan solicitud (answersFor d r p e) ht narr).scenes.dropLast,
        endAtLeastStart s.start s.stop = true) ∧
    (¬(Py.containsSub (Py.lower r) "slow" = true ∧
        (ScenePlanning.parseDuration d = 360 ∨ ScenePlanning.parseDuration d = 1200)) →
      ∀ s ∈ (ScenePlanning.generatePlan solicitud (answersFor d r p e) ht narr).scenes,
        endAtLeastStart s.start s.stop = true) ∧
    ((Py.containsSub (Py.lower r) "slow" = true ∧
        (ScenePlanning.parseDuration d = 360 ∨ ScenePlanning.parseDuration d = 1200)) →
      ∃ s ∈ (ScenePlanning.generatePlan solicitud (answersFor d r p e) ht narr).scenes,
        endAtLeastStart s.start s.stop = false) := by
  fin_cases hd <;> fin_cases hr <;>
    refine ⟨planScenes_dropLast (fun a b => endAtLeastStart a b = true) _ _
      solicitud p e ht narr (by decide), ?_, ?_⟩ <;>
    first
      | exact fun hcond => planScenes_all (fun a b => endAtLeastStart a b = true) _ _
          solicitud p e ht narr (by decide)
      | exact fun hcond => absurd (by decide) hcond
      | exact fun hcond => absurd hcond (by decide)
      | exact fun hcond => planScenes_exists (fun a b => endAtLeastStart a b = false) _ _
          solicitud p e ht narr (by decide)

/-- C1 (witness): the amended rule at the medium rhythm and the 1-3 minute
bucket gives `end ≥ start` for every scene. -/
theorem scenePlanTiming_witness :
    ((ScenePlanning.generatePlan "Make a nice video about my vacation"
        (answersFor "1-3 minutes (YouTube short/Medium)" "Medium (balanced, standard pacing)"
          "YouTube (long-form, 16:9)" "Closed ending (clear resolution)") false none).scenes.all
      (fun s => endAtLeastStart s.start s.stop)) = true := by
  rw [List.all_eq_true]
  intro s hs
  exact (scenePlanTiming "1-3 minutes (YouTube short/Medium)" (by decide)
    "Medium (balanced, standard pacing)" (by decide)
    "Make a nice video about my vacation" "YouTube (long-form, 16:9)"
    "Closed ending (clear resolution)" false none).2.1 (by decide) s hs

/-- C2: over every combination of catalog answers, the per-scene spans
(end seconds minus start seconds) sum exactly to the resolved total
duration, and every scene except the final one keeps the rhythm-scaled base
length — the rounding drift is absorbed entirely by the final scene. -/
theorem scenePlanDurationSum (d : String) (hd : d ∈ durationOptions)
    (r : String) (hr : r ∈ rhythmOptions) (solicitud p e : String) (ht : Bool)
    (narr : Option Narrative.AnalysisResult) :
    (((ScenePlanning.generatePlan solicitud (answersFor d r p e) ht narr).scenes.map
        (fun s => sceneSpan s.start s.stop)).sum = (ScenePlanning.parseDuration d : Int)) ∧
    (∀ s ∈ (ScenePlanning.generatePlan solicitud (answersFor d r p e) ht narr).scenes.dropLast,
        sceneSpan s.start s.stop = scaledBase d r) := by
  constructor
  · rw [planScenes_map (fun a b => sceneSpan a b) d r solicitud p e ht narr]
    fin_cases hd <;> fin_cases hr <;> decide
  · apply planScenes_dropLast (fun a b => sceneSpan a b = scaledBase d r) d r solicitud p e ht narr
    fin_cases hd <;> fin_cases hr <;> decide

/-- C2 (witness): the sum rule at the slow rhythm and the 10-30 minute
bucket (the combination with the largest drift). -/
theorem scenePlanDurationSum_witness :
    ((ScenePlanning.generatePlan "Make a nice video about my vacation"
        (answersFor "10-30 minutes (Extended content)" "Slow (contemplative, long takes, artistic)"
          "YouTube (long-form, 16:9)" "Closed ending (clear resolution)") false none).scenes.map
        (fun s => sceneSpan s.start s.stop)).sum =
      (ScenePlanning.parseDuration "10-30 minutes (Extended content)" : Int) :=
  (scenePlanDurationSum "10-30 minutes (Extended content)" (by decide)
    "Slow (contemplative, long takes, artistic)" (by decide)
    "Make a nice video about my vacation" "YouTube (long-form, 16:9)"
    "Closed ending (clear resolution)" false none).1

/-- C8 (counterexample): on a fresh session every prerequisite is absent;
all three phase handlers reject with the precondition error but return a
session whose `phase` field has already been overwritten, so the session is
not "exactly as it was before the call". -/
theorem rejectedTransitionMutatesPhase :
    (App.phase2GenerateQuestions App.freshSession).2 =
      .error "Prompt not yet approved. Complete Phase 1 first." ∧
    (App.phase2GenerateQuestions App.freshSession).1 ≠ App.freshSession ∧
    (App.phase2GenerateQuestions App.freshSession).1.phase =
      some "phase2_intelligent_questioning" ∧
    (App.phase3NarrativeAnalysis App.freshSession).2 =
      .error "Phase 2 not completed. Answer questions first." ∧
    (App.phase3NarrativeAnalysis App.freshSession).1 ≠ App.freshSession ∧
    (App.phase4ScenePlanning App.freshSession).2 =
      .error "Phase 3 not completed. Run narrative analysis first." ∧
    (App.phase4ScenePlanning App.freshSession).1 ≠ App.freshSession := by
  decide

/-- C8 (amended): a call whose prerequisite is absent fails with the
precondition error and leaves the session's stored data untouched, but the
session's current phase has already been overwritten with the attempted
phase's name — the phase field is mutated even on a rejected transition. -/
theorem rejectedTransitionDataUnchanged (s : App.Session) :
    (s.data.promptApproved = false →
      App.phase2GenerateQuestions s =
        ({ s with phase := some "phase2_intelligent_questioning" },
         .error "Prompt not yet approved. Complete Phase 1 first.")) ∧
    (s.data.phase2Answers = [] →
      App.phase3NarrativeAnalysis s =
        ({ s with phase := some "phase3_narrative_reasoning" },
         .error "Phase 2 not completed. Answer questions first.")) ∧
    (s.data.phase3Narrative = none →
      App.phase4ScenePlanning s =
        ({ s with phase := some "phase4_scene_planning" },
         .error "Phase 3 not completed. Run narrative analysis first.")) := by
  refine ⟨fun h2 => ?_, fun h3 => ?_, fun h4 => ?_⟩
  · simp [App.phase2GenerateQuestions, h2]
  · simp [App.phase3NarrativeAnalysis, h3]
  · simp [App.phase4ScenePlanning, h4]

/-- C8 (witness): the amended rule at a fresh session, for phase 2. -/
theorem rejectedTransitionDataUnchanged_witness :
    App.phase2GenerateQuestions App.freshSession =
      ({ App.freshSession with phase := some "phase2_intelligent_questioning" },
       .error "Prompt not yet approved. Complete Phase 1 first.") :=
  (rejectedTransitionDataUnchanged App.freshSession).1 rfl

end Claims
